import Mathlib

/-
  Shallow embedding of the Obsidian-MDLX language core (lexer, parser,
  evaluator, standard library) and proofs about it.

  Translated from the TypeScript sources:
    - src/src/evaluator.ts        (ExecutionContext, Evaluator, value model)
    - src/unnamed/part_000        (Parser revision with binary operators)
    - src/unnamed/part_005        (Lexer revision with math-mode passthrough)
    - src/src/stdlib.ts           (standard library; stdlib_heading)

  Modelling conventions:
    - JS doubles are modelled as exact rationals (Rat).  IEEE infinities and
      NaN are outside the model: number coercions return Option Rat, with
      none standing for NaN.
    - JS Map objects are modelled as association lists with replace-or-append
      update; lookup is by key, so ordering is irrelevant to the semantics.
    - ExecutionContext objects are mutable and shared by reference in the
      source, so they live in an explicit store (list of scopes) indexed by
      scope ids; parent / globalContext pointers are scope ids.
    - Array values are mutable by reference in the source; the model keeps
      them immutable.  Index-assignment is modelled as read-modify-write on
      the holding variable, which agrees with the source except for aliasing
      effects that no theorem below concerns.  Strict equality (===) on two
      array values is reference equality in JS; the model conservatively
      treats distinct evaluations of arrays as unequal.
    - All loops and recursion are fuel-indexed; running out of fuel is a
      distinguished outcome that no theorem identifies with either success
      or failure.
-/

namespace MDLX

/- Characters that would be awkward to spell literally. -/
def cNul : Char := Char.ofNat 0
def cQuote : Char := Char.ofNat 34
def cBacktick : Char := Char.ofNat 96
def cBackslash : Char := Char.ofNat 92
def cLBrace : Char := Char.ofNat 123
def cRBrace : Char := Char.ofNat 125

/-- evaluator.ts, class RuntimeError: message plus 1-based source position. -/
structure RuntimeError where
  message : String
  line : Nat
  column : Nat
deriving DecidableEq, Repr

/-- types/lexer.types.ts, class LexerError. -/
structure LexerError where
  message : String
  line : Nat
  column : Nat
deriving DecidableEq, Repr

/-- types/ast.types.ts, class ParseError. -/
structure ParseError where
  message : String
  line : Nat
  column : Nat
deriving DecidableEq, Repr

mutual
/-- The `value` field of an EvaluatedValue:
    `string | number | boolean | EvaluatedValue[]` (evaluator.ts). -/
inductive Payload where
  | str : String → Payload
  | num : Rat → Payload
  | bool : Bool → Payload
  | arr : List EvaluatedValue → Payload

/-- evaluator.ts, interface EvaluatedValue:
    value, isMarkdown, optional styles, optional children. -/
inductive EvaluatedValue where
  | mk : Payload → Bool → Option (List String) → Option (List EvaluatedValue) →
      EvaluatedValue
end

def EvaluatedValue.value : EvaluatedValue → Payload
  | .mk v _ _ _ => v

def EvaluatedValue.isMarkdown : EvaluatedValue → Bool
  | .mk _ m _ _ => m

def EvaluatedValue.styles : EvaluatedValue → Option (List String)
  | .mk _ _ s _ => s

def EvaluatedValue.children : EvaluatedValue → Option (List EvaluatedValue)
  | .mk _ _ _ c => c

/- ======================= Abstract syntax tree ==========================
   types/ast.types.ts.  Every node carries (line, column); expression nodes
   double as statements in the source union type, modelled by `Stmt.exprS`. -/

mutual
/-- TemplateStringNode parts: literal text or an embedded expression. -/
inductive TemplatePartAst where
  | text : String → TemplatePartAst
  | exprPart : Expr → TemplatePartAst

inductive Expr where
  | strE (value : String) (isMarkdown : Bool) (line column : Nat)
  | templateStr (parts : List TemplatePartAst) (line column : Nat)
  | numE (value : Rat) (line column : Nat)
  | boolE (value : Bool) (line column : Nat)
  | arrE (elements : List Expr) (line column : Nat)
  | arrayIndex (array index : Expr) (line column : Nat)
  | ident (name : String) (line column : Nat)
  | concatE (parts : List Expr) (line column : Nat)
  | binaryOp (operator : String) (left right : Expr) (line column : Nat)
  | unaryOp (operator : String) (operand : Expr) (prefixFlag : Bool)
      (line column : Nat)
  | call (name : String) (args : List Expr) (line column : Nat)
  | anonFn (args : List Expr) (styles : List String) (line column : Nat)
  | blockE (body : List Stmt) (styles : List String) (line column : Nat)

inductive Stmt where
  | var (name : String) (value : Expr) (isGlobal : Bool) (line column : Nat)
  | fnDecl (name : String) (params : List String) (styles : List String)
      (body : List Stmt) (isGlobal : Bool) (line column : Nat)
  | ifS (condition : Expr) (thenB : List Stmt)
      (elseIfs : List (Expr × List Stmt)) (elseB : Option (List Stmt))
      (line column : Nat)
  | forS (init : Stmt) (condition update : Expr) (body : List Stmt)
      (line column : Nat)
  | whileS (condition : Expr) (body : List Stmt) (line column : Nat)
  | ret (value : Option Expr) (line column : Nat)
  | idxAssign (array index value : Expr) (line column : Nat)
  | exprS (e : Expr)
end

/-- The source checks `"name" in node.operand` before increment ops.  Of the
    expression node kinds, Identifier and FunctionCall carry a `name`. -/
def Expr.nameField : Expr → Option String
  | .ident n _ _ => some n
  | .call n _ _ _ => some n
  | _ => none

def Expr.line : Expr → Nat
  | .strE _ _ l _ | .templateStr _ l _ | .numE _ l _ | .boolE _ l _
  | .arrE _ l _ | .arrayIndex _ _ l _ | .ident _ l _ | .concatE _ l _
  | .binaryOp _ _ _ l _ | .unaryOp _ _ _ l _ | .call _ _ l _
  | .anonFn _ _ l _ | .blockE _ _ l _ => l

def Expr.column : Expr → Nat
  | .strE _ _ _ c | .templateStr _ _ c | .numE _ _ c | .boolE _ _ c
  | .arrE _ _ c | .arrayIndex _ _ _ c | .ident _ _ c | .concatE _ _ c
  | .binaryOp _ _ _ _ c | .unaryOp _ _ _ _ c | .call _ _ _ c
  | .anonFn _ _ _ c | .blockE _ _ _ c => c

/- ==================== Execution contexts (scopes) ======================
   evaluator.ts, class ExecutionContext.  Contexts are mutable objects
   that hold references to a parent context and to a shared global
   context; the model keeps every context in a store, indexed by id. -/

/-- evaluator.ts, interface FunctionDefinition. -/
structure FunctionDefinition where
  params : List String
  styles : List String
  body : List Stmt

/-- One ExecutionContext object: its two Maps and its two references. -/
structure Scope where
  vars : List (String × EvaluatedValue)
  funcs : List (String × FunctionDefinition)
  parent : Option Nat
  globalContext : Option Nat

/-- The store of all ExecutionContext objects, indexed by scope id. -/
structure Store where
  scopes : List Scope

/-- Map.get on an association list. -/
def mapGet {α : Type} (m : List (String × α)) (k : String) : Option α :=
  match m with
  | [] => none
  | (k₁, v) :: rest => if k₁ = k then some v else mapGet rest k

/-- Map.set on an association list: replace in place, else append. -/
def mapSet {α : Type} (m : List (String × α)) (k : String) (v : α) :
    List (String × α) :=
  match m with
  | [] => [(k, v)]
  | (k₁, v₁) :: rest =>
    if k₁ = k then (k₁, v) :: rest else (k₁, v₁) :: mapSet rest k v

/-- Map.has on an association list. -/
def mapHas {α : Type} (m : List (String × α)) (k : String) : Bool :=
  (mapGet m k).isSome

def Store.getScope (st : Store) (i : Nat) : Option Scope :=
  st.scopes.get? i

/-- Apply `f` to the `i`-th element of a list, point-wise. -/
def listModify {α : Type} : List α → Nat → (α → α) → List α
  | [], _, _ => []
  | x :: rest, 0, f => f x :: rest
  | x :: rest, n + 1, f => x :: listModify rest n f

/-- Replace scope `i` by `f` applied to it (mutation of one context). -/
def Store.modifyScope (st : Store) (i : Nat) (f : Scope → Scope) : Store :=
  ⟨listModify st.scopes i f⟩

/-- `ctx.variables.set(name, value)` on the context with id `i`. -/
def Store.setVarIn (st : Store) (i : Nat) (name : String)
    (v : EvaluatedValue) : Store :=
  st.modifyScope i (fun sc => { sc with vars := mapSet sc.vars name v })

/-- `ctx.variables.has(name)` on the context with id `i`. -/
def Store.varsHas (st : Store) (i : Nat) (name : String) : Bool :=
  match st.getScope i with
  | none => false
  | some sc => mapHas sc.vars name

/-- `ctx.variables.get(name)` on the context with id `i`. -/
def Store.varsGet (st : Store) (i : Nat) (name : String) :
    Option EvaluatedValue :=
  match st.getScope i with
  | none => none
  | some sc => mapGet sc.vars name

/-- `ctx.functions.set(name, f)` on the context with id `i`. -/
def Store.setFuncIn (st : Store) (i : Nat) (name : String)
    (f : FunctionDefinition) : Store :=
  st.modifyScope i (fun sc => { sc with funcs := mapSet sc.funcs name f })

/-- Append a fresh scope; its id is the previous store size. -/
def Store.pushScope (st : Store) (sc : Scope) : Store :=
  ⟨st.scopes ++ [sc]⟩

/-- evaluator.ts ExecutionContext.setVariable: an explicit global write
    targets the global context when one is attached; an unflagged write
    targets the global context exactly when the variable already exists
    there, and the local map otherwise. -/
def ExecutionContext.setVariable (st : Store) (self : Nat) (name : String)
    (v : EvaluatedValue) (isGlobal : Bool) : Store :=
  match st.getScope self with
  | none => st
  | some sc =>
    match sc.globalContext with
    | some g =>
      if isGlobal then st.setVarIn g name v
      else if st.varsHas g name then st.setVarIn g name v
      else st.setVarIn self name v
    | none => st.setVarIn self name v

/-- evaluator.ts ExecutionContext.getVariable: local map, then the global
    context, then the parent chain.  Fuel bounds the parent-chain walk. -/
def ExecutionContext.getVariable :
    Nat → Store → Nat → String → Option EvaluatedValue
  | 0, _, _, _ => none
  | fuel + 1, st, self, name =>
    match st.getScope self with
    | none => none
    | some sc =>
      match mapGet sc.vars name with
      | some v => some v
      | none =>
        match sc.globalContext.bind (fun g => st.varsGet g name) with
        | some v => some v
        | none =>
          sc.parent.bind
            (fun p => ExecutionContext.getVariable fuel st p name)

/-- evaluator.ts ExecutionContext.hasVariable: local, or global, or the
    parent chain. -/
def ExecutionContext.hasVariable : Nat → Store → Nat → String → Bool
  | 0, _, _, _ => false
  | fuel + 1, st, self, name =>
    match st.getScope self with
    | none => false
    | some sc =>
      mapHas sc.vars name ||
        (match sc.globalContext with
         | some g => st.varsHas g name
         | none => false) ||
        (match sc.parent with
         | some p => ExecutionContext.hasVariable fuel st p name
         | none => false)

/-- evaluator.ts ExecutionContext.isGlobalVariable. -/
def ExecutionContext.isGlobalVariable (st : Store) (self : Nat)
    (name : String) : Bool :=
  match st.getScope self with
  | none => false
  | some sc =>
    match sc.globalContext with
    | some g => st.varsHas g name
    | none => false

/-- evaluator.ts ExecutionContext.setFunction. -/
def ExecutionContext.setFunction (st : Store) (self : Nat) (name : String)
    (f : FunctionDefinition) (isGlobal : Bool) : Store :=
  match st.getScope self with
  | none => st
  | some sc =>
    match sc.globalContext with
    | some g => if isGlobal then st.setFuncIn g name f
                else st.setFuncIn self name f
    | none => st.setFuncIn self name f

/-- evaluator.ts ExecutionContext.getFunction: local map, then the global
    context, then the parent chain. -/
def ExecutionContext.getFunction :
    Nat → Store → Nat → String → Option FunctionDefinition
  | 0, _, _, _ => none
  | fuel + 1, st, self, name =>
    match st.getScope self with
    | none => none
    | some sc =>
      match mapGet sc.funcs name with
      | some f => some f
      | none =>
        match sc.globalContext.bind
            (fun g => (st.getScope g).bind (fun gs => mapGet gs.funcs name))
          with
        | some f => some f
        | none =>
          sc.parent.bind
            (fun p => ExecutionContext.getFunction fuel st p name)

/- ================== JavaScript primitive coercions ====================
   The TypeScript source leans on the JS runtime for String(v), Number(v),
   parseFloat(v) and the implicit coercions of `+` and the relational
   operators.  These are modelled below over the rational number model;
   IEEE infinities, NaN payloads (none stands for NaN), hex/octal/binary
   Number() literals and the shortest-round-trip double printing are outside
   the model, which agrees with JS on all finite decimal notations. -/

/-- Decimal digits of the fractional part `num / den` (`num < den`),
    long division, at most `k` digits, stopping on remainder zero. -/
def fracDigits : Nat → Nat → Nat → String
  | 0, _, _ => ""
  | _ + 1, 0, _ => ""
  | k + 1, num + 1, den =>
    Nat.repr ((num + 1) * 10 / den) ++ fracDigits k ((num + 1) * 10 % den) den

/-- JS ToString on a number.  Integers print exactly as in JS; fractions
    print by long division (JS prints the shortest round-trip double). -/
def jsNumToString (q : Rat) : String :=
  if q.den = 1 then q.num.repr
  else
    (if q.num < 0 then "-" else "") ++
      Nat.repr (q.num.natAbs / q.den) ++ "." ++
      fracDigits 30 (q.num.natAbs % q.den) q.den

/-- JS ToString on one of the source value payloads.  An EvaluatedValue[]
    stringifies by Array.prototype.toString: the elements (plain objects)
    each print as "[object Object]", joined by commas. -/
def jsToString : Payload → String
  | .str s => s
  | .num n => jsNumToString n
  | .bool b => if b then "true" else "false"
  | .arr es => String.intercalate "," (es.map (fun _ => "[object Object]"))

/-- JS WhiteSpace/LineTerminator accepted by parseFloat and Number. -/
def jsIsSpace (c : Char) : Bool :=
  c = ' ' || c = '\t' || c = '\n' || c = '\r' || c.toNat = 11 || c.toNat = 12

/-- Numeric value of a digit string. -/
def digitsVal (ds : List Char) : Nat :=
  ds.foldl (fun a c => a * 10 + (c.toNat - 48)) 0

structure DecParse where
  value : Rat
  rest : List Char
  sawDigit : Bool

/-- Longest unsigned decimal prefix: digits, optional fraction, optional
    exponent (the exponent only counts when digits follow the `e`). -/
def parseUnsignedDecimal (cs : List Char) : DecParse :=
  let ip := cs.takeWhile Char.isDigit
  let r1 := cs.dropWhile Char.isDigit
  let fp :=
    match r1 with
    | '.' :: rest => rest.takeWhile Char.isDigit
    | _ => []
  let r2 :=
    match r1 with
    | '.' :: rest => rest.dropWhile Char.isDigit
    | _ => r1
  let sawDigit := !ip.isEmpty || !fp.isEmpty
  let mantissa : Rat :=
    (digitsVal ip : Rat) + (digitsVal fp : Rat) / (10 : Rat) ^ fp.length
  if sawDigit then
    match r2 with
    | c :: rest =>
      if c = 'e' || c = 'E' then
        let esign : Int := match rest with | '-' :: _ => -1 | _ => 1
        let rest2 := match rest with
          | '-' :: rr => rr
          | '+' :: rr => rr
          | _ => rest
        let eds := rest2.takeWhile Char.isDigit
        if eds.isEmpty then ⟨mantissa, r2, true⟩
        else
          ⟨mantissa * (10 : Rat) ^ (esign * (digitsVal eds : Int)),
            rest2.dropWhile Char.isDigit, true⟩
      else ⟨mantissa, r2, true⟩
    | [] => ⟨mantissa, [], true⟩
  else ⟨mantissa, r2, false⟩

/-- JS parseFloat: skip leading whitespace, optional sign, longest decimal
    prefix; NaN (none) when no digit is consumed. -/
def parseFloatOpt (s : String) : Option Rat :=
  let cs := s.data.dropWhile jsIsSpace
  let sign : Rat := match cs with | '-' :: _ => -1 | _ => 1
  let cs1 := match cs with
    | '-' :: r => r
    | '+' :: r => r
    | _ => cs
  let p := parseUnsignedDecimal cs1
  if p.sawDigit then some (sign * p.value) else none

/-- JS Number() on a string: trim; empty means 0; otherwise the whole
    remainder must be one signed decimal literal. -/
def jsStringToNumberOpt (s : String) : Option Rat :=
  let cs :=
    ((s.data.dropWhile jsIsSpace).reverse.dropWhile jsIsSpace).reverse
  match cs with
  | [] => some 0
  | _ =>
    let sign : Rat := match cs with | '-' :: _ => -1 | _ => 1
    let cs1 := match cs with
      | '-' :: r => r
      | '+' :: r => r
      | _ => cs
    let p := parseUnsignedDecimal cs1
    if p.sawDigit && p.rest.isEmpty then some (sign * p.value) else none

/-- JS Number() on a value payload (used by the standard library).
    An array converts through its string form. -/
def jsNumberOpt : Payload → Option Rat
  | .num n => some n
  | .bool b => some (if b then 1 else 0)
  | .str s => jsStringToNumberOpt s
  | .arr es => jsStringToNumberOpt (jsToString (.arr es))

/-- JS ToIntegerOrInfinity for String.repeat counts: truncation toward
    zero (the sources only reach this with a nonnegative count). -/
def ratTruncToNat (q : Rat) : Nat := (q.num / (q.den : Int)).toNat

/- ===================== Evaluator: value helpers ======================
   src/src/evaluator.ts, class Evaluator. -/

/-- Truncation toward zero of a rational (JS number-to-integer). -/
def ratTruncInt (q : Rat) : Int :=
  if q.num < 0 then -((q.num.natAbs / q.den : Nat) : Int)
  else ((q.num.natAbs / q.den : Nat) : Int)

/-- evaluator.ts toNumber: numbers pass through, booleans map to 1/0,
    arrays fail, strings go through parseFloat and fail on NaN. -/
def Evaluator.toNumber (v : Payload) (line column : Nat) :
    Except RuntimeError Rat :=
  match v with
  | .num n => .ok n
  | .bool b => .ok (if b then 1 else 0)
  | .arr _ => .error ⟨"Cannot convert array to number", line, column⟩
  | .str s =>
    match parseFloatOpt s with
    | some n => .ok n
    | none =>
      .error ⟨"Cannot convert " ++ s ++ " to number", line, column⟩

/-- evaluator.ts toBoolean: booleans pass through, numbers are true iff
    nonzero, arrays are always true, strings are true iff nonempty. -/
def Evaluator.toBoolean : Payload → Bool
  | .bool b => b
  | .num n => decide (n ≠ 0)
  | .arr _ => true
  | .str s => decide (s ≠ "")

/-- JS strict equality (===) on the payloads compared by the source.
    Cross-type comparisons are false without coercion.  On two arrays the
    source compares object references; the model (which has no references)
    conservatively returns false, which no theorem below relies on. -/
def strictEqPayload : Payload → Payload → Bool
  | .str a, .str b => a == b
  | .num a, .num b => a == b
  | .bool a, .bool b => a == b
  | _, _ => false

/-- JS ToPrimitive with number hint: primitives pass through, an array
    converts to its string form. -/
def toPrimNumHint : Payload → Payload
  | .arr es => .str (jsToString (.arr es))
  | p => p

/-- JS ToNumber of a primitive payload (none is NaN). -/
def primToNumOpt : Payload → Option Rat
  | .num n => some n
  | .bool b => some (if b then 1 else 0)
  | .str s => jsStringToNumberOpt s
  | .arr es => jsStringToNumberOpt (jsToString (.arr es))

/-- JS abstract relational `<`: after ToPrimitive, two strings compare
    lexicographically, otherwise both convert to numbers and any NaN
    makes the comparison false. -/
def jsLess (a b : Payload) : Bool :=
  match toPrimNumHint a, toPrimNumHint b with
  | .str x, .str y => decide (x < y)
  | pa, pb =>
    match primToNumOpt pa, primToNumOpt pb with
    | some x, some y => decide (x < y)
    | _, _ => false

/-- JS `<=` (false on NaN, lexicographic on two strings). -/
def jsLessEq (a b : Payload) : Bool :=
  match toPrimNumHint a, toPrimNumHint b with
  | .str x, .str y => decide (x ≤ y)
  | pa, pb =>
    match primToNumOpt pa, primToNumOpt pb with
    | some x, some y => decide (x ≤ y)
    | _, _ => false

/-- JS + in the branch the source reaches when neither original operand
    is a string (operands are numbers, booleans or arrays): ToPrimitive
    turns an array into a string, a string on either side concatenates,
    otherwise both sides convert to numbers and add. -/
def jsAddNonString (a b : Payload) : Payload :=
  match toPrimNumHint a, toPrimNumHint b with
  | .str x, py => .str (x ++ jsToString py)
  | px, .str y => .str (jsToString px ++ y)
  | px, py =>
    .num ((primToNumOpt px).getD 0 + (primToNumOpt py).getD 0)

/-- JS remainder on finite numbers: a - b * trunc(a / b). -/
def jsRem (a b : Rat) : Rat := a - b * (ratTruncInt (a / b) : Rat)

/-- Left-to-right scan replacing each `:::` with three backticks. -/
def convertCodeBlocksList : List Char → List Char
  | [] => []
  | ':' :: ':' :: ':' :: rest =>
    cBacktick :: cBacktick :: cBacktick :: convertCodeBlocksList rest
  | c :: rest => c :: convertCodeBlocksList rest

/-- evaluator.ts convertCodeBlocks: the regex replaces `:::lang` by three
    backticks followed by the unchanged language id; since the captured
    id is re-emitted unchanged and cannot contain a colon, this is the
    left-to-right replacement of every `:::` by three backticks. -/
def convertCodeBlocks (text : String) : String :=
  String.mk (convertCodeBlocksList text.data)

/- ===================== Evaluator: outcome type ======================= -/

/-- An exception thrown during evaluation: the RuntimeError class or the
    ReturnValue control-transfer class (evaluator.ts throws both). -/
inductive Thrown where
  | runtimeError : RuntimeError → Thrown
  | returnValue : Option EvaluatedValue → Thrown

/-- Outcome of an evaluator step: a normal result with the mutated store,
    a thrown exception with the store as mutated so far, or fuel
    exhaustion (a model artifact for unbounded loops and recursion). -/
inductive EvalOut (α : Type) where
  | ok : Store → α → EvalOut α
  | thrown : Store → Thrown → EvalOut α
  | fuelOut : EvalOut α

/-- The scope id (in search order local, global, parent chain) whose vars
    map holds `name`; used to model in-place mutation of an array value
    that getVariable found. -/
def findVarScope : Nat → Store → Nat → String → Option Nat
  | 0, _, _, _ => none
  | fuel + 1, st, self, name =>
    match st.getScope self with
    | none => none
    | some sc =>
      if mapHas sc.vars name then some self
      else
        match sc.globalContext with
        | some g =>
          if st.varsHas g name then some g
          else sc.parent.bind (fun p => findVarScope fuel st p name)
        | none => sc.parent.bind (fun p => findVarScope fuel st p name)

/-- Empty markdown string, the default for a missing implicit argument
    and for empty fold results. -/
def emptyMdString : EvaluatedValue := .mk (.str "") true none none

/-- JS typeof names used in the source error messages. -/
def typeofName : Payload → String
  | .str _ => "string"
  | .num _ => "number"
  | .bool _ => "boolean"
  | .arr _ => "object"

/-- `typeof value === "string"` on a payload. -/
def isStringPayload : Payload → Bool
  | .str _ => true
  | _ => false

/-- Array.isArray on a payload. -/
def isArrayPayload : Payload → Bool
  | .arr _ => true
  | _ => false

/-- A payload that is a number or a boolean (the operand kinds for which
    the JS `+` fallback branch performs numeric addition). -/
def isNumOrBool : Payload → Bool
  | .num _ => true
  | .bool _ => true
  | _ => false

/-- The zero/one/many folding of loop iteration results shared verbatim
    by evaluateForStatement and evaluateWhileStatement: no result, the
    single result, or the space-joined string with the OR of the
    markdown flags. -/
def foldLoopResults : List EvaluatedValue → Option EvaluatedValue
  | [] => none
  | [r] => some r
  | r₁ :: r₂ :: rest =>
    some (.mk
      (.str (String.intercalate " "
        ((r₁ :: r₂ :: rest).map (fun r => jsToString r.value))))
      ((r₁ :: r₂ :: rest).any (fun r => r.isMarkdown)) none none)

/-- executeFunction's positional parameter binding loop: `args[i]` missing
    for a declared parameter is a runtime failure; otherwise bind through
    setVariable on the fresh call scope `n`.  The partially mutated store
    accompanies the error, as the source mutations persist. -/
def bindParams :
    Store → Nat → List String → List EvaluatedValue → Nat → Nat →
      Except (Store × RuntimeError) Store
  | st, _, [], _, _, _ => .ok st
  | st, _, p :: _, [], line, column =>
    .error (st, ⟨"Missing argument for parameter " ++ p, line, column⟩)
  | st, n, p :: ps, a :: as, line, column =>
    bindParams (ExecutionContext.setVariable st n p a false) n ps as
      line column

mutual

/-- evaluator.ts Evaluator.evaluateStatement: dispatch on the node kind;
    declarations produce null (none), the expression kinds delegate to
    evaluateExpression. -/
def evaluateStatement :
    Nat → Store → Nat → Stmt → EvalOut (Option EvaluatedValue)
  | 0, _, _, _ => .fuelOut
  | fuel + 1, st, self, stmt =>
    match stmt with
    | .var name value isGlobal _ _ =>
      match evaluateExpression fuel st self value with
      | .ok st1 v =>
        .ok (ExecutionContext.setVariable st1 self name v isGlobal) none
      | .thrown st1 e => .thrown st1 e
      | .fuelOut => .fuelOut
    | .fnDecl name params styles body isGlobal _ _ =>
      .ok (ExecutionContext.setFunction st self name ⟨params, styles, body⟩
        isGlobal) none
    | .idxAssign array index value line column =>
      evaluateArrayIndexAssignment fuel st self array index value line column
    | .ret (some e) _ _ =>
      match evaluateExpression fuel st self e with
      | .ok st1 v => .thrown st1 (.returnValue (some v))
      | .thrown st1 ex => .thrown st1 ex
      | .fuelOut => .fuelOut
    | .ret none _ _ => .thrown st (.returnValue none)
    | .ifS condition thenB elseIfs elseB _ _ =>
      match evaluateExpression fuel st self condition with
      | .ok st1 cv =>
        if Evaluator.toBoolean cv.value then
          evaluateStatementBlock fuel st1 self thenB none
        else evalElseIfs fuel st1 self elseIfs elseB
      | .thrown st1 e => .thrown st1 e
      | .fuelOut => .fuelOut
    | .forS init condition update body _ _ =>
      match evaluateStatement fuel st self init with
      | .ok st1 _ =>
        match evalForLoop fuel st1 self condition update body [] with
        | .ok st2 results => .ok st2 (foldLoopResults results)
        | .thrown st2 e => .thrown st2 e
        | .fuelOut => .fuelOut
      | .thrown st1 e => .thrown st1 e
      | .fuelOut => .fuelOut
    | .whileS condition body _ _ =>
      match evalWhileLoop fuel st self condition body [] with
      | .ok st2 results => .ok st2 (foldLoopResults results)
      | .thrown st2 e => .thrown st2 e
      | .fuelOut => .fuelOut
    | .exprS e =>
      match evaluateExpression fuel st self e with
      | .ok st1 v => .ok st1 (some v)
      | .thrown st1 ex => .thrown st1 ex
      | .fuelOut => .fuelOut
termination_by structural fuel _ _ _ => fuel

/-- evaluator.ts Evaluator.evaluateArrayIndexAssignment.  The source
    mutates the shared array object in place; the model writes the
    updated array back to the scope that getVariable resolved (see the
    aliasing caveat in the header comment). -/
def evaluateArrayIndexAssignment :
    Nat → Store → Nat → Expr → Expr → Expr → Nat → Nat →
      EvalOut (Option EvaluatedValue)
  | 0, _, _, _, _, _, _, _ => .fuelOut
  | fuel + 1, st, self, array, index, value, line, column =>
    match evaluateExpression fuel st self value with
    | .ok st1 v =>
      match array with
      | .ident arrayName _ _ =>
        match ExecutionContext.getVariable fuel st1 self arrayName with
        | none =>
          .thrown st1 (.runtimeError
            ⟨"Undefined variable: " ++ arrayName, line, column⟩)
        | some arrayValue =>
          match arrayValue.value with
          | .arr elems =>
            match evaluateExpression fuel st1 self index with
            | .ok st2 iv =>
              match iv.value with
              | .num nidx =>
                let idx := Rat.floor nidx
                if idx < 0 ∨ (elems.length : Int) ≤ idx then
                  .thrown st2 (.runtimeError
                    ⟨"Array index out of bounds: " ++ idx.repr ++
                      " (array length: " ++ Nat.repr elems.length ++ ")",
                      line, column⟩)
                else
                  match findVarScope fuel st2 self arrayName with
                  | some i =>
                    .ok (st2.setVarIn i arrayName
                      (.mk (.arr (elems.set idx.toNat v))
                        arrayValue.isMarkdown arrayValue.styles
                        arrayValue.children)) none
                  | none => .ok st2 none
              | _ =>
                .thrown st2 (.runtimeError
                  ⟨"Array index must be a number (got " ++
                    typeofName iv.value ++ ")", line, column⟩)
            | .thrown st2 e => .thrown st2 e
            | .fuelOut => .fuelOut
          | _ =>
            .thrown st1 (.runtimeError
              ⟨"Cannot index non-array value (got " ++
                typeofName arrayValue.value ++ ")", line, column⟩)
      | _ =>
        .thrown st1 (.runtimeError
          ⟨"Can only assign to array variable, not expression",
            line, column⟩)
    | .thrown st1 e => .thrown st1 e
    | .fuelOut => .fuelOut
termination_by structural fuel _ _ _ _ _ _ _ => fuel

/-- evaluator.ts Evaluator.evaluateExpression and the per-kind methods it
    dispatches to. -/
def evaluateExpression : Nat → Store → Nat → Expr → EvalOut EvaluatedValue
  | 0, _, _, _ => .fuelOut
  | fuel + 1, st, self, e =>
    match e with
    | .strE value isMarkdown _ _ =>
      .ok st (.mk
        (.str (if isMarkdown then convertCodeBlocks value else value))
        isMarkdown none none)
    | .templateStr parts _ _ =>
      match evalTemplateParts fuel st self parts "" with
      | .ok st1 s => .ok st1 (.mk (.str (convertCodeBlocks s)) true none none)
      | .thrown st1 ex => .thrown st1 ex
      | .fuelOut => .fuelOut
    | .numE v _ _ => .ok st (.mk (.num v) true none none)
    | .boolE v _ _ => .ok st (.mk (.bool v) false none none)
    | .arrE elements _ _ =>
      match evalExprList fuel st self elements [] with
      | .ok st1 vs => .ok st1 (.mk (.arr vs) false none none)
      | .thrown st1 ex => .thrown st1 ex
      | .fuelOut => .fuelOut
    | .arrayIndex array index line column =>
      match evaluateExpression fuel st self array with
      | .ok st1 av =>
        match evaluateExpression fuel st1 self index with
        | .ok st2 iv =>
          match av.value with
          | .arr elems =>
            match iv.value with
            | .num nidx =>
              let idx := Rat.floor nidx
              if idx < 0 ∨ (elems.length : Int) ≤ idx then
                .thrown st2 (.runtimeError
                  ⟨"Array index out of bounds: " ++ idx.repr ++
                    " (array length: " ++ Nat.repr elems.length ++ ")",
                    line, column⟩)
              else
                match elems.get? idx.toNat with
                | some v => .ok st2 v
                | none =>
                  .thrown st2 (.runtimeError
                    ⟨"Array index out of bounds: " ++ idx.repr ++
                      " (array length: " ++ Nat.repr elems.length ++ ")",
                      line, column⟩)
            | _ =>
              .thrown st2 (.runtimeError
                ⟨"Array index must be a number (got " ++
                  typeofName iv.value ++ ")", line, column⟩)
          | _ =>
            .thrown st2 (.runtimeError
              ⟨"Cannot index non-array value (got " ++
                typeofName av.value ++ ")", line, column⟩)
        | .thrown st2 e2 => .thrown st2 e2
        | .fuelOut => .fuelOut
      | .thrown st1 e1 => .thrown st1 e1
      | .fuelOut => .fuelOut
    | .ident name line column =>
      match ExecutionContext.getVariable fuel st self name with
      | some v => .ok st v
      | none =>
        .thrown st (.runtimeError
          ⟨"Undefined variable: " ++ name, line, column⟩)
    | .concatE parts _ _ =>
      match evalExprList fuel st self parts [] with
      | .ok st1 vs =>
        .ok st1 (.mk
          (.str (String.join (vs.map (fun p => jsToString p.value))))
          (vs.any (fun p => p.isMarkdown)) none none)
      | .thrown st1 ex => .thrown st1 ex
      | .fuelOut => .fuelOut
    | .binaryOp operator left right line column =>
      if operator ∈ (["==", "!=", "<", "<=", ">", ">="] : List String) then
        match evaluateExpression fuel st self left with
        | .ok st1 lv =>
          match evaluateExpression fuel st1 self right with
          | .ok st2 rv =>
            let result : Bool :=
              if operator = "==" then strictEqPayload lv.value rv.value
              else if operator = "!=" then
                !(strictEqPayload lv.value rv.value)
              else if operator = "<" then jsLess lv.value rv.value
              else if operator = "<=" then jsLessEq lv.value rv.value
              else if operator = ">" then jsLess rv.value lv.value
              else jsLessEq rv.value lv.value
            .ok st2 (.mk (.bool result) false none none)
          | .thrown st2 e2 => .thrown st2 e2
          | .fuelOut => .fuelOut
        | .thrown st1 e1 => .thrown st1 e1
        | .fuelOut => .fuelOut
      else if operator = "&&" ∨ operator = "||" then
        match evaluateExpression fuel st self left with
        | .ok st1 lv =>
          let leftBool := Evaluator.toBoolean lv.value
          if operator = "&&" ∧ leftBool = false then
            .ok st1 (.mk (.bool false) false none none)
          else if operator = "||" ∧ leftBool = true then
            .ok st1 (.mk (.bool true) false none none)
          else
            match evaluateExpression fuel st1 self right with
            | .ok st2 rv =>
              .ok st2 (.mk (.bool (Evaluator.toBoolean rv.value))
                false none none)
            | .thrown st2 e2 => .thrown st2 e2
            | .fuelOut => .fuelOut
        | .thrown st1 e1 => .thrown st1 e1
        | .fuelOut => .fuelOut
      else
        match evaluateExpression fuel st self left with
        | .ok st1 lv =>
          match evaluateExpression fuel st1 self right with
          | .ok st2 rv =>
            if operator = "+" then
              if isStringPayload lv.value || isStringPayload rv.value then
                .ok st2 (.mk
                  (.str (jsToString lv.value ++ jsToString rv.value))
                  (lv.isMarkdown || rv.isMarkdown) none none)
              else
                .ok st2 (.mk (jsAddNonString lv.value rv.value)
                  true none none)
            else
              match Evaluator.toNumber lv.value line column with
              | .error er => .thrown st2 (.runtimeError er)
              | .ok leftNum =>
                match Evaluator.toNumber rv.value line column with
                | .error er => .thrown st2 (.runtimeError er)
                | .ok rightNum =>
                  if operator = "-" then
                    .ok st2 (.mk (.num (leftNum - rightNum)) true none none)
                  else if operator = "*" then
                    .ok st2 (.mk (.num (leftNum * rightNum)) true none none)
                  else if operator = "/" then
                    if rightNum = 0 then
                      .thrown st2 (.runtimeError
                        ⟨"Division by zero", line, column⟩)
                    else
                      .ok st2 (.mk (.num (leftNum / rightNum)) true none none)
                  else if operator = "%" then
                    if rightNum = 0 then
                      .thrown st2 (.runtimeError
                        ⟨"Modulo by zero", line, column⟩)
                    else
                      .ok st2 (.mk (.num (jsRem leftNum rightNum))
                        true none none)
                  else
                    .thrown st2 (.runtimeError
                      ⟨"Unknown binary operator: " ++ operator,
                        line, column⟩)
          | .thrown st2 e2 => .thrown st2 e2
          | .fuelOut => .fuelOut
        | .thrown st1 e1 => .thrown st1 e1
        | .fuelOut => .fuelOut
    | .unaryOp operator operand prefixFlag line column =>
      if operator = "!" then
        match evaluateExpression fuel st self operand with
        | .ok st1 v =>
          .ok st1 (.mk (.bool (!(Evaluator.toBoolean v.value)))
            false none none)
        | .thrown st1 ex => .thrown st1 ex
        | .fuelOut => .fuelOut
      else if operator = "-" then
        match evaluateExpression fuel st self operand with
        | .ok st1 v =>
          match Evaluator.toNumber v.value line column with
          | .ok n => .ok st1 (.mk (.num (-n)) true none none)
          | .error er => .thrown st1 (.runtimeError er)
        | .thrown st1 ex => .thrown st1 ex
        | .fuelOut => .fuelOut
      else
        match operand.nameField with
        | none =>
          .thrown st (.runtimeError
            ⟨operator ++ " requires a variable", line, column⟩)
        | some name =>
          match ExecutionContext.getVariable fuel st self name with
          | none =>
            .thrown st (.runtimeError
              ⟨"Undefined variable: " ++ name, line, column⟩)
          | some current =>
            match Evaluator.toNumber current.value line column with
            | .error er => .thrown st (.runtimeError er)
            | .ok currentNum =>
              let newValue :=
                if operator = "++" then currentNum + 1 else currentNum - 1
              let isGlobalVar := ExecutionContext.isGlobalVariable st self name
              .ok (ExecutionContext.setVariable st self name
                  (.mk (.num newValue) true none none) isGlobalVar)
                (.mk (.num (if prefixFlag then newValue else currentNum))
                  true none none)
    | .call name args line column =>
      match ExecutionContext.getFunction fuel st self name with
      | none =>
        .thrown st (.runtimeError
          ⟨"Undefined function: " ++ name, line, column⟩)
      | some funcDef =>
        match evalExprList fuel st self args [] with
        | .ok st1 argValues =>
          executeFunction fuel st1 self funcDef argValues line column
        | .thrown st1 ex => .thrown st1 ex
        | .fuelOut => .fuelOut
    | .anonFn args styles _ _ =>
      match evalExprList fuel st self args [] with
      | .ok st1 argValues =>
        .ok st1 (.mk
          (.str (String.intercalate " "
            (argValues.map (fun v => jsToString v.value))))
          (argValues.any (fun v => v.isMarkdown))
          (if styles.length > 0 then some styles else none) none)
      | .thrown st1 ex => .thrown st1 ex
      | .fuelOut => .fuelOut
    | .blockE body styles _ _ =>
      match evaluateStatementsCollect fuel st self body [] with
      | .ok st1 results =>
        match results with
        | [] =>
          .ok st1 (.mk (.str "") true
            (if styles.length > 0 then some styles else none) none)
        | [r] =>
          .ok st1 (.mk r.value r.isMarkdown
            (if styles.length > 0 then some styles else r.styles)
            r.children)
        | r₁ :: r₂ :: rest =>
          .ok st1 (.mk
            (.str (String.intercalate " "
              ((r₁ :: r₂ :: rest).map (fun r => jsToString r.value))))
            ((r₁ :: r₂ :: rest).any (fun r => r.isMarkdown))
            (if styles.length > 0 then some styles else none)
            (some (r₁ :: r₂ :: rest)))
      | .thrown st1 ex => .thrown st1 ex
      | .fuelOut => .fuelOut
termination_by structural fuel _ _ _ => fuel

/-- Left-to-right evaluation of an expression list (arguments, array
    elements, concatenation parts). -/
def evalExprList :
    Nat → Store → Nat → List Expr → List EvaluatedValue →
      EvalOut (List EvaluatedValue)
  | 0, _, _, _, _ => .fuelOut
  | _ + 1, st, _, [], acc => .ok st acc
  | fuel + 1, st, self, e :: rest, acc =>
    match evaluateExpression fuel st self e with
    | .ok st1 v => evalExprList fuel st1 self rest (acc ++ [v])
    | .thrown st1 ex => .thrown st1 ex
    | .fuelOut => .fuelOut
termination_by structural fuel _ _ _ _ => fuel

/-- evaluator.ts Evaluator.evaluateTemplateString's accumulation loop:
    text parts append verbatim, expression parts evaluate and append
    their String() form. -/
def evalTemplateParts :
    Nat → Store → Nat → List TemplatePartAst → String → EvalOut String
  | 0, _, _, _, _ => .fuelOut
  | _ + 1, st, _, [], acc => .ok st acc
  | fuel + 1, st, self, p :: rest, acc =>
    match p with
    | .text s => evalTemplateParts fuel st self rest (acc ++ s)
    | .exprPart pe =>
      match evaluateExpression fuel st self pe with
      | .ok st1 v =>
        evalTemplateParts fuel st1 self rest (acc ++ jsToString v.value)
      | .thrown st1 ex => .thrown st1 ex
      | .fuelOut => .fuelOut
termination_by structural fuel _ _ _ _ => fuel

/-- evaluator.ts Evaluator.evaluateStatementBlock: run the statements and
    keep the last non-null result (`last` is the accumulator, callers
    pass none). -/
def evaluateStatementBlock :
    Nat → Store → Nat → List Stmt → Option EvaluatedValue →
      EvalOut (Option EvaluatedValue)
  | 0, _, _, _, _ => .fuelOut
  | _ + 1, st, _, [], last => .ok st last
  | fuel + 1, st, self, s :: rest, last =>
    match evaluateStatement fuel st self s with
    | .ok st1 (some v) => evaluateStatementBlock fuel st1 self rest (some v)
    | .ok st1 none => evaluateStatementBlock fuel st1 self rest last
    | .thrown st1 e => .thrown st1 e
    | .fuelOut => .fuelOut
termination_by structural fuel _ _ _ _ => fuel

/-- The collection loop shared by Evaluator.evaluate, loop bodies,
    evaluateBlock and executeFunction: run the statements in order and
    collect every non-null result. -/
def evaluateStatementsCollect :
    Nat → Store → Nat → List Stmt → List EvaluatedValue →
      EvalOut (List EvaluatedValue)
  | 0, _, _, _, _ => .fuelOut
  | _ + 1, st, _, [], acc => .ok st acc
  | fuel + 1, st, self, s :: rest, acc =>
    match evaluateStatement fuel st self s with
    | .ok st1 (some r) => evaluateStatementsCollect fuel st1 self rest (acc ++ [r])
    | .ok st1 none => evaluateStatementsCollect fuel st1 self rest acc
    | .thrown st1 e => .thrown st1 e
    | .fuelOut => .fuelOut
termination_by structural fuel _ _ _ _ => fuel

/-- evaluator.ts evaluateIfStatement's else-if scan: first true condition
    wins, then the optional else block. -/
def evalElseIfs :
    Nat → Store → Nat → List (Expr × List Stmt) → Option (List Stmt) →
      EvalOut (Option EvaluatedValue)
  | 0, _, _, _, _ => .fuelOut
  | fuel + 1, st, self, [], elseB =>
    match elseB with
    | some b => evaluateStatementBlock fuel st self b none
    | none => .ok st none
  | fuel + 1, st, self, (cond, thenB) :: rest, elseB =>
    match evaluateExpression fuel st self cond with
    | .ok st1 cv =>
      if Evaluator.toBoolean cv.value then
        evaluateStatementBlock fuel st1 self thenB none
      else evalElseIfs fuel st1 self rest elseB
    | .thrown st1 e => .thrown st1 e
    | .fuelOut => .fuelOut
termination_by structural fuel _ _ _ _ => fuel

/-- evaluator.ts evaluateForStatement's iteration loop: condition before
    every iteration, body results collected, update after each body. -/
def evalForLoop :
    Nat → Store → Nat → Expr → Expr → List Stmt → List EvaluatedValue →
      EvalOut (List EvaluatedValue)
  | 0, _, _, _, _, _, _ => .fuelOut
  | fuel + 1, st, self, condition, update, body, acc =>
    match evaluateExpression fuel st self condition with
    | .ok st1 cv =>
      if Evaluator.toBoolean cv.value then
        match evaluateStatementsCollect fuel st1 self body acc with
        | .ok st2 acc1 =>
          match evaluateExpression fuel st2 self update with
          | .ok st3 _ => evalForLoop fuel st3 self condition update body acc1
          | .thrown st3 e => .thrown st3 e
          | .fuelOut => .fuelOut
        | .thrown st2 e => .thrown st2 e
        | .fuelOut => .fuelOut
      else .ok st1 acc
    | .thrown st1 e => .thrown st1 e
    | .fuelOut => .fuelOut
termination_by structural fuel _ _ _ _ _ _ => fuel

/-- evaluator.ts evaluateWhileStatement's iteration loop. -/
def evalWhileLoop :
    Nat → Store → Nat → Expr → List Stmt → List EvaluatedValue →
      EvalOut (List EvaluatedValue)
  | 0, _, _, _, _, _ => .fuelOut
  | fuel + 1, st, self, condition, body, acc =>
    match evaluateExpression fuel st self condition with
    | .ok st1 cv =>
      if Evaluator.toBoolean cv.value then
        match evaluateStatementsCollect fuel st1 self body acc with
        | .ok st2 acc1 => evalWhileLoop fuel st2 self condition body acc1
        | .thrown st2 e => .thrown st2 e
        | .fuelOut => .fuelOut
      else .ok st1 acc
    | .thrown st1 e => .thrown st1 e
    | .fuelOut => .fuelOut
termination_by structural fuel _ _ _ _ _ => fuel

/-- evaluator.ts Evaluator.executeFunction: fresh scope parented to the
    caller with the caller's global context propagated; positional
    parameter binding; the implicit content parameter unless already
    visible; body evaluation with the ReturnValue control-transfer caught
    at this boundary; declaration styles override at the single
    outermost point; zero/one/many folding of fall-through results. -/
def executeFunction :
    Nat → Store → Nat → FunctionDefinition → List EvaluatedValue →
      Nat → Nat → EvalOut EvaluatedValue
  | 0, _, _, _, _, _, _ => .fuelOut
  | fuel + 1, st, self, funcDef, args, line, column =>
    let n := st.scopes.length
    let st1 := st.pushScope
      ⟨[], [], some self, (st.getScope self).bind Scope.globalContext⟩
    match bindParams st1 n funcDef.params args line column with
    | .error (st2, er) => .thrown st2 (.runtimeError er)
    | .ok st2 =>
      let st3 :=
        if ExecutionContext.hasVariable fuel st2 n "@content" then st2
        else ExecutionContext.setVariable st2 n "@content"
          (args.headD emptyMdString) false
      match evaluateStatementsCollect fuel st3 n funcDef.body [] with
      | .thrown st4 (.returnValue rv) =>
        match rv with
        | some v =>
          .ok st4 (.mk v.value v.isMarkdown
            (if funcDef.styles.length > 0 then some funcDef.styles
             else v.styles) v.children)
        | none => .ok st4 emptyMdString
      | .thrown st4 (.runtimeError er) => .thrown st4 (.runtimeError er)
      | .fuelOut => .fuelOut
      | .ok st4 results =>
        match results with
        | [] => .ok st4 emptyMdString
        | [r] =>
          .ok st4 (.mk r.value r.isMarkdown
            (if funcDef.styles.length > 0 then some funcDef.styles
             else r.styles) r.children)
        | r₁ :: r₂ :: rest =>
          .ok st4 (.mk
            (.str (String.intercalate " "
              ((r₁ :: r₂ :: rest).map (fun r => jsToString r.value))))
            ((r₁ :: r₂ :: rest).any (fun r => r.isMarkdown))
            (if funcDef.styles.length > 0 then some funcDef.styles else none)
            (some (r₁ :: r₂ :: rest)))
termination_by structural fuel _ _ _ _ _ _ => fuel

end

/-- evaluator.ts Evaluator.evaluate: one value per top-level statement
    that produced one. -/
def Evaluator.evaluate (fuel : Nat) (st : Store) (self : Nat)
    (program : List Stmt) : EvalOut (List EvaluatedValue) :=
  evaluateStatementsCollect fuel st self program []

/- ============================= Lexer ==================================
   src/unnamed/part_005 (second revision), class Lexer: source text to a
   flat token stream ending in EOF. -/

inductive TokenType where
  | STRING | TEMPLATE_STRING | LITERAL_STRING | NUMBER | BOOLEAN
  | IF | ELSE | FOR | WHILE
  | IDENTIFIER | NAME
  | AT | GLOBAL | EQUALS | PLUS | MINUS | STAR | SLASH | PERCENT
  | PLUS_PLUS | MINUS_MINUS
  | EQUALS_EQUALS | NOT_EQUALS | LESS_THAN | LESS_THAN_EQUALS
  | GREATER_THAN | GREATER_THAN_EQUALS
  | AND | OR | NOT | ARROW
  | LPAREN | RPAREN | LBRACKET | RBRACKET | LBRACE | RBRACE | COMMA
  | NEWLINE | EOF
deriving DecidableEq, Repr

/-- types/lexer.types.ts TemplatePart: literal text or raw expression
    source captured for deferred sub-parsing. -/
inductive TemplatePart where
  | text : String → TemplatePart
  | exprPart : String → TemplatePart
deriving DecidableEq, Repr

/-- types/lexer.types.ts Token. -/
structure Token where
  type : TokenType
  value : String
  line : Nat
  column : Nat
  templateParts : Option (List TemplatePart) := none
deriving DecidableEq, Repr

/-- The lexer's mutable scan state: source, position, 1-based line and
    column. -/
structure LexState where
  src : List Char
  pos : Nat
  line : Nat
  column : Nat
deriving Repr

inductive LexResult (α : Type) where
  | ok : LexState → α → LexResult α
  | err : LexerError → LexResult α
  | fuelOut : LexResult α

def LexState.isAtEnd (s : LexState) : Bool := s.src.length ≤ s.pos

def LexState.peek (s : LexState) : Char :=
  if s.isAtEnd then cNul else s.src.getD s.pos cNul

def LexState.peekNext (s : LexState) : Char :=
  if s.src.length ≤ s.pos + 1 then cNul else s.src.getD (s.pos + 1) cNul

def LexState.peekAhead (s : LexState) (n : Nat) : Char :=
  if s.src.length ≤ s.pos + n then cNul else s.src.getD (s.pos + n) cNul

/-- advance: consume one character, tracking line/column. -/
def LexState.bump (s : LexState) : LexState :=
  if s.src.getD s.pos cNul = '\n' then
    { s with pos := s.pos + 1, line := s.line + 1, column := 1 }
  else { s with pos := s.pos + 1, column := s.column + 1 }

def lexIsAlpha (c : Char) : Bool :=
  ('a' ≤ c && c ≤ 'z') || ('A' ≤ c && c ≤ 'Z')

def lexIsDigit (c : Char) : Bool := '0' ≤ c && c ≤ '9'

def lexIsAlphaNumeric (c : Char) : Bool := lexIsAlpha c || lexIsDigit c

def LexState.isOperatorAhead (s : LexState) : Bool :=
  (s.peek = '+' && s.peekNext = '+') || (s.peek = '-' && s.peekNext = '-')

def skipWhitespace : Nat → LexState → LexState
  | 0, s => s
  | f + 1, s =>
    if !s.isAtEnd && (s.peek = ' ' || s.peek = '\t' || s.peek = '\r') then
      skipWhitespace f s.bump
    else s

def skipToLineEnd : Nat → LexState → LexState
  | 0, s => s
  | f + 1, s =>
    if !s.isAtEnd && s.peek ≠ '\n' then skipToLineEnd f s.bump else s

def skipComments : Nat → LexState → LexState
  | 0, s => s
  | f + 1, s =>
    if !s.isAtEnd && s.peek = '/' && s.peekNext = '/' then
      skipComments f (skipWhitespace f (skipToLineEnd f s.bump.bump))
    else s

/-- getEscapedChar: n, t and r map to control characters; every other
    escaped character (backslash, quote, backtick, angle brackets and
    the default case alike) maps to itself. -/
def getEscapedChar (c : Char) : Char :=
  if c = 'n' then '\n' else if c = 't' then '\t'
  else if c = 'r' then '\r' else c

structure MathToggle where
  consumed : Nat
  newInMathMode : Bool
  newMathModeDouble : Bool

/-- checkMathModeToggle: single or double dollar toggles the math
    passthrough, matching the delimiter that opened it. -/
def checkMathModeToggle (s : LexState) (inMathMode mathModeDouble : Bool) :
    MathToggle :=
  if s.peek = '$' then
    if s.peekNext = '$' then
      if inMathMode && mathModeDouble then ⟨2, false, false⟩
      else if !inMathMode then ⟨2, true, true⟩
      else ⟨0, inMathMode, mathModeDouble⟩
    else
      if inMathMode && !mathModeDouble then ⟨1, false, false⟩
      else if !inMathMode then ⟨1, true, false⟩
      else ⟨0, inMathMode, mathModeDouble⟩
  else ⟨0, inMathMode, mathModeDouble⟩

/-- JS String.prototype.trim over the model's whitespace set. -/
def jsTrim (s : String) : String :=
  String.mk (((s.data.dropWhile jsIsSpace).reverse.dropWhile jsIsSpace).reverse)

/-- The template-expression capture loop shared by the single-line and
    multiline string readers: verbatim capture honoring nested angle
    depth; a newline fails only in the single-line variant. -/
def readTemplateExprSrc :
    Nat → LexState → String → Nat → Nat → Nat → Bool → LexResult String
  | 0, _, _, _, _, _, _ => .fuelOut
  | f + 1, s, acc, depth, sl, sc, multiline =>
    if !s.isAtEnd && depth > 0 then
      if s.peek = '<' then
        readTemplateExprSrc f s.bump (acc.push '<') (depth + 1) sl sc multiline
      else if s.peek = '>' then
        if depth - 1 > 0 then
          readTemplateExprSrc f s.bump (acc.push '>') (depth - 1) sl sc
            multiline
        else readTemplateExprSrc f s.bump acc (depth - 1) sl sc multiline
      else if s.peek = '\n' && !multiline then
        .err ⟨"Unterminated template expression in string", sl, sc⟩
      else
        readTemplateExprSrc f s.bump (acc.push s.peek) depth sl sc multiline
    else
      if depth ≠ 0 then .err ⟨"Unterminated template expression", sl, sc⟩
      else .ok s acc

/-- readString's scan loop (after the opening quote). -/
def readStringLoop :
    Nat → LexState → Nat → Nat → String → List TemplatePart → Bool →
      Bool → Bool → LexResult Token
  | 0, _, _, _, _, _, _, _, _ => .fuelOut
  | f + 1, s, sl, sc, value, parts, hasT, inM, inMD =>
    if !s.isAtEnd && s.peek ≠ cQuote then
      if s.peek = '\n' then .err ⟨"Unterminated string", sl, sc⟩
      else
        let t := checkMathModeToggle s inM inMD
        if t.consumed = 2 then
          readStringLoop f s.bump.bump sl sc
            ((value.push s.peek).push s.bump.peek) parts hasT
            t.newInMathMode t.newMathModeDouble
        else if t.consumed = 1 then
          readStringLoop f s.bump sl sc (value.push s.peek) parts hasT
            t.newInMathMode t.newMathModeDouble
        else if s.peek = cBackslash && !inM then
          let s1 := s.bump
          if !s1.isAtEnd then
            readStringLoop f s1.bump sl sc
              (value.push (getEscapedChar s1.peek)) parts hasT inM inMD
          else readStringLoop f s1 sl sc value parts hasT inM inMD
        else if s.peek = '<' && s.peekNext ≠ ' ' then
          let parts1 := if value.length > 0 then parts ++ [.text value]
            else parts
          match readTemplateExprSrc f s.bump "" 1 sl sc false with
          | .ok s2 exprSrc =>
            readStringLoop f s2 sl sc ""
              (parts1 ++ [.exprPart (jsTrim exprSrc)]) true inM inMD
          | .err e => .err e
          | .fuelOut => .fuelOut
        else
          readStringLoop f s.bump sl sc (value.push s.peek) parts hasT
            inM inMD
    else
      if s.isAtEnd then .err ⟨"Unterminated string", sl, sc⟩
      else
        let s1 := s.bump
        if hasT then
          let parts2 := if value.length > 0 then parts ++ [.text value]
            else parts
          .ok s1 ⟨.TEMPLATE_STRING, "", sl, sc, some parts2⟩
        else .ok s1 ⟨.STRING, value, sl, sc, none⟩

/-- readMultilineString's scan loop (after the three opening quotes). -/
def readMultilineLoop :
    Nat → LexState → Nat → Nat → String → List TemplatePart → Bool →
      Bool → Bool → LexResult Token
  | 0, _, _, _, _, _, _, _, _ => .fuelOut
  | f + 1, s, sl, sc, value, parts, hasT, inM, inMD =>
    if s.isAtEnd then .err ⟨"Unterminated multiline string", sl, sc⟩
    else if s.peek = cQuote && s.peekNext = cQuote && s.peekAhead 2 = cQuote
      then
      let s1 := s.bump.bump.bump
      if hasT then
        let parts2 := if value.length > 0 then parts ++ [.text value]
          else parts
        .ok s1 ⟨.TEMPLATE_STRING, "", sl, sc, some parts2⟩
      else .ok s1 ⟨.STRING, value, sl, sc, none⟩
    else
      let t := checkMathModeToggle s inM inMD
      if t.consumed = 2 then
        readMultilineLoop f s.bump.bump sl sc
          ((value.push s.peek).push s.bump.peek) parts hasT
          t.newInMathMode t.newMathModeDouble
      else if t.consumed = 1 then
        readMultilineLoop f s.bump sl sc (value.push s.peek) parts hasT
          t.newInMathMode t.newMathModeDouble
      else if s.peek = cBackslash && !inM then
        let s1 := s.bump
        if !s1.isAtEnd then
          readMultilineLoop f s1.bump sl sc
            (value.push (getEscapedChar s1.peek)) parts hasT inM inMD
        else readMultilineLoop f s1 sl sc value parts hasT inM inMD
      else if s.peek = '<' && s.peekNext ≠ ' ' then
        let parts1 := if value.length > 0 then parts ++ [.text value]
          else parts
        match readTemplateExprSrc f s.bump "" 1 sl sc true with
        | .ok s2 exprSrc =>
          readMultilineLoop f s2 sl sc ""
            (parts1 ++ [.exprPart (jsTrim exprSrc)]) true inM inMD
        | .err e => .err e
        | .fuelOut => .fuelOut
      else
        readMultilineLoop f s.bump sl sc (value.push s.peek) parts hasT
          inM inMD

/-- readString: dispatch to the multiline reader on a tripled quote. -/
def readString (fuel : Nat) (s : LexState) (sl sc : Nat) : LexResult Token :=
  let s1 := s.bump
  if s1.peek = cQuote && s1.peekNext = cQuote then
    readMultilineLoop fuel s1.bump.bump sl sc "" [] false false false
  else readStringLoop fuel s1 sl sc "" [] false false false

def readLiteralStringLoop :
    Nat → LexState → Nat → Nat → String → LexResult Token
  | 0, _, _, _, _ => .fuelOut
  | f + 1, s, sl, sc, value =>
    if !s.isAtEnd && s.peek ≠ cBacktick then
      readLiteralStringLoop f s.bump sl sc (value.push s.peek)
    else if s.isAtEnd then
      .err ⟨"Unterminated literal string", sl, sc⟩
    else .ok s.bump ⟨.LITERAL_STRING, value, sl, sc, none⟩

/-- readLiteralString: backtick-delimited, no escape processing. -/
def readLiteralString (fuel : Nat) (s : LexState) (sl sc : Nat) :
    LexResult Token :=
  readLiteralStringLoop fuel s.bump sl sc ""

def readIdentBody : Nat → LexState → String → String × LexState
  | 0, s, acc => (acc, s)
  | f + 1, s, acc =>
    if !s.isAtEnd && (lexIsAlphaNumeric s.peek || s.peek = '_' ||
        (s.peek = '-' && !s.isOperatorAhead)) then
      readIdentBody f s.bump (acc.push s.peek)
    else (acc, s)

/-- readIdentifier: consume the sigil; a bare sigil is an AT token (or a
    lexical error for the global form); otherwise collect the name. -/
def readIdentifier (fuel : Nat) (s : LexState) (sl sc : Nat)
    (isGlobal : Bool) : LexResult Token :=
  let s1 := s.bump
  if s1.isAtEnd || (!lexIsAlpha s1.peek && s1.peek ≠ '_') then
    if isGlobal then .err ⟨"Expected identifier after ~@", sl, sc⟩
    else .ok s1 ⟨.AT, "@", sl, sc, none⟩
  else
    let (value, s2) := readIdentBody fuel s1 "@"
    .ok s2 ⟨if isGlobal then .GLOBAL else .IDENTIFIER, value, sl, sc, none⟩

def readNameBody : Nat → LexState → String → String × LexState
  | 0, s, acc => (acc, s)
  | f + 1, s, acc =>
    if !s.isAtEnd && (lexIsAlphaNumeric s.peek || s.peek = '-') then
      readNameBody f s.bump (acc.push s.peek)
    else (acc, s)

/-- readName: plain names, with keyword and boolean recognition. -/
def readName (fuel : Nat) (s : LexState) (sl sc : Nat) : LexResult Token :=
  let (value, s1) := readNameBody fuel s ""
  if value = "true" ∨ value = "false" then
    .ok s1 ⟨.BOOLEAN, value, sl, sc, none⟩
  else if value = "if" then .ok s1 ⟨.IF, value, sl, sc, none⟩
  else if value = "else" then .ok s1 ⟨.ELSE, value, sl, sc, none⟩
  else if value = "for" then .ok s1 ⟨.FOR, value, sl, sc, none⟩
  else if value = "while" then .ok s1 ⟨.WHILE, value, sl, sc, none⟩
  else .ok s1 ⟨.NAME, value, sl, sc, none⟩

def readDigitsBody : Nat → LexState → String → String × LexState
  | 0, s, acc => (acc, s)
  | f + 1, s, acc =>
    if !s.isAtEnd && lexIsDigit s.peek then
      readDigitsBody f s.bump (acc.push s.peek)
    else (acc, s)

/-- readNumber: a digit run with one optional fractional part gated on a
    digit following the decimal point. -/
def readNumber (fuel : Nat) (s : LexState) (sl sc : Nat) : LexResult Token :=
  let (ip, s1) := readDigitsBody fuel s ""
  if s1.peek = '.' && lexIsDigit s1.peekNext then
    let (fp, s2) := readDigitsBody fuel s1.bump (ip.push '.')
    .ok s2 ⟨.NUMBER, fp, sl, sc, none⟩
  else .ok s1 ⟨.NUMBER, ip, sl, sc, none⟩

/-- A single-character punctuation token. -/
def punctToken (t : TokenType) (v : String) (sl sc : Nat) (s : LexState) :
    LexResult (Option Token) :=
  .ok s.bump (some ⟨t, v, sl, sc, none⟩)

/-- nextToken: skip whitespace and comments, then dispatch on the first
    character; returns none only at end of input. -/
def nextToken (fuel : Nat) (s : LexState) : LexResult (Option Token) :=
  let s0 := skipComments fuel (skipWhitespace fuel s)
  if s0.isAtEnd then .ok s0 none
  else
    let sl := s0.line
    let sc := s0.column
    let c := s0.peek
    let liftTok : LexResult Token → LexResult (Option Token) := fun r =>
      match r with
      | .ok s1 t => .ok s1 (some t)
      | .err e => .err e
      | .fuelOut => .fuelOut
    if c = '\n' then .ok s0.bump (some ⟨.NEWLINE, "\n", sl, sc, none⟩)
    else if c = cQuote then liftTok (readString fuel s0 sl sc)
    else if c = cBacktick then liftTok (readLiteralString fuel s0 sl sc)
    else if lexIsDigit c then liftTok (readNumber fuel s0 sl sc)
    else if c = '~' then
      if s0.peekNext = '@' then
        liftTok (readIdentifier fuel s0.bump sl sc true)
      else
        .err ⟨"Unexpected character ~, did you mean ~@ for global variable?",
          sl, sc⟩
    else if c = '@' then liftTok (readIdentifier fuel s0 sl sc false)
    else if c = '+' then
      let s1 := s0.bump
      if s1.peek = '+' then
        .ok s1.bump (some ⟨.PLUS_PLUS, "++", sl, sc, none⟩)
      else .ok s1 (some ⟨.PLUS, "+", sl, sc, none⟩)
    else if c = '-' then
      let s1 := s0.bump
      if s1.peek = '-' then
        .ok s1.bump (some ⟨.MINUS_MINUS, "--", sl, sc, none⟩)
      else .ok s1 (some ⟨.MINUS, "-", sl, sc, none⟩)
    else if c = '=' then
      let s1 := s0.bump
      if s1.peek = '=' then
        .ok s1.bump (some ⟨.EQUALS_EQUALS, "==", sl, sc, none⟩)
      else if s1.peek = '>' then
        .ok s1.bump (some ⟨.ARROW, "=>", sl, sc, none⟩)
      else .ok s1 (some ⟨.EQUALS, "=", sl, sc, none⟩)
    else if c = '!' then
      let s1 := s0.bump
      if s1.peek = '=' then
        .ok s1.bump (some ⟨.NOT_EQUALS, "!=", sl, sc, none⟩)
      else .ok s1 (some ⟨.NOT, "!", sl, sc, none⟩)
    else if c = '<' then
      let s1 := s0.bump
      if s1.peek = '=' then
        .ok s1.bump (some ⟨.LESS_THAN_EQUALS, "<=", sl, sc, none⟩)
      else .ok s1 (some ⟨.LESS_THAN, "<", sl, sc, none⟩)
    else if c = '>' then
      let s1 := s0.bump
      if s1.peek = '=' then
        .ok s1.bump (some ⟨.GREATER_THAN_EQUALS, ">=", sl, sc, none⟩)
      else .ok s1 (some ⟨.GREATER_THAN, ">", sl, sc, none⟩)
    else if c = '&' then
      let s1 := s0.bump
      if s1.peek = '&' then .ok s1.bump (some ⟨.AND, "&&", sl, sc, none⟩)
      else .err ⟨"Unexpected character &, did you mean &&?", sl, sc⟩
    else if c = '|' then
      let s1 := s0.bump
      if s1.peek = '|' then .ok s1.bump (some ⟨.OR, "||", sl, sc, none⟩)
      else .err ⟨"Unexpected character |, did you mean ||?", sl, sc⟩
    else if c = '*' then punctToken .STAR "*" sl sc s0
    else if c = '/' then punctToken .SLASH "/" sl sc s0
    else if c = '%' then punctToken .PERCENT "%" sl sc s0
    else if c = '(' then punctToken .LPAREN "(" sl sc s0
    else if c = ')' then punctToken .RPAREN ")" sl sc s0
    else if c = '[' then punctToken .LBRACKET "[" sl sc s0
    else if c = ']' then punctToken .RBRACKET "]" sl sc s0
    else if c = cLBrace then punctToken .LBRACE (String.mk [cLBrace]) sl sc s0
    else if c = cRBrace then punctToken .RBRACE (String.mk [cRBrace]) sl sc s0
    else if c = ',' then punctToken .COMMA "," sl sc s0
    else if lexIsAlpha c then liftTok (readName fuel s0 sl sc)
    else .err ⟨"Unexpected character: " ++ String.mk [c], sl, sc⟩

def tokenizeLoop : Nat → LexState → List Token → LexResult (List Token)
  | 0, _, _ => .fuelOut
  | f + 1, s, acc =>
    if s.isAtEnd then .ok s acc
    else
      match nextToken f s with
      | .ok s1 (some t) => tokenizeLoop f s1 (acc ++ [t])
      | .ok s1 none => tokenizeLoop f s1 acc
      | .err e => .err e
      | .fuelOut => .fuelOut

/-- part_005 Lexer.tokenize: all tokens followed by an EOF token carrying
    the final position. -/
def Lexer.tokenize (fuel : Nat) (source : String) : LexResult (List Token) :=
  match tokenizeLoop fuel ⟨source.data, 0, 1, 1⟩ [] with
  | .ok s toks => .ok s (toks ++ [⟨.EOF, "", s.line, s.column, none⟩])
  | .err e => .err e
  | .fuelOut => .fuelOut

/- ============================= Parser =================================
   src/unnamed/part_000, class Parser: recursive descent over the token
   stream with precedence climbing for expressions. -/

/-- The parser's state: the (immutable) token list and the cursor. -/
structure ParserState where
  tokens : List Token
  current : Nat

inductive PResult (α : Type) where
  | ok : ParserState → α → PResult α
  | err : ParseError → PResult α
  | lexErr : LexerError → PResult α
  | fuelOut : PResult α

/-- peek: the token under the cursor (token streams from the lexer always
    end in EOF, so the default is never reached on those). -/
def ParserState.peek (p : ParserState) : Token :=
  p.tokens.getD p.current ⟨.EOF, "", 0, 0, none⟩

def ParserState.isAtEnd (p : ParserState) : Bool :=
  p.peek.type = .EOF

def ParserState.peekNext (p : ParserState) : Option Token :=
  if p.tokens.length ≤ p.current + 1 then none
  else p.tokens.get? (p.current + 1)

def ParserState.previous (p : ParserState) : Token :=
  p.tokens.getD (p.current - 1) ⟨.EOF, "", 0, 0, none⟩

/-- advance: step the cursor unless at end; yields previous(). -/
def ParserState.advance (p : ParserState) : Token × ParserState :=
  let p1 := if p.isAtEnd then p else { p with current := p.current + 1 }
  (p1.previous, p1)

def ParserState.check (p : ParserState) (t : TokenType) : Bool :=
  if p.isAtEnd then false else p.peek.type = t

def skipNewlinesP : Nat → ParserState → ParserState
  | 0, p => p
  | f + 1, p =>
    if p.check .NEWLINE then skipNewlinesP f (p.advance).2 else p

/-- consume: require a token type or fail with the given message at the
    current token's position. -/
def consumeP (p : ParserState) (t : TokenType) (msg : String) :
    Except ParseError (Token × ParserState) :=
  if p.check t then .ok p.advance
  else .error ⟨msg, p.peek.line, p.peek.column⟩

mutual

/-- part_000 Parser.parse's statement loop (newlines skipped between
    statements). -/
def parseStatements : Nat → ParserState → List Stmt → PResult (List Stmt)
  | 0, _, _ => .fuelOut
  | f + 1, p, acc =>
    if !p.isAtEnd then
      if p.check .NEWLINE then parseStatements f (p.advance).2 acc
      else
        match parseStatement f p with
        | .ok p1 (some s) => parseStatements f p1 (acc ++ [s])
        | .ok p1 none => parseStatements f p1 acc
        | .err e => .err e
        | .lexErr e => .lexErr e
        | .fuelOut => .fuelOut
    else .ok p acc
termination_by structural fuel _ _ => fuel

/-- part_000 Parser.parseStatement. -/
def parseStatement : Nat → ParserState → PResult (Option Stmt)
  | 0, _ => .fuelOut
  | f + 1, p0 =>
    let p := skipNewlinesP (f + 1) p0
    if p.isAtEnd then .ok p none
    else if p.check .IF then
      match parseIfStatement f p with
      | .ok p1 s => .ok p1 (some s)
      | .err e => .err e
      | .lexErr e => .lexErr e
      | .fuelOut => .fuelOut
    else if p.check .FOR then
      match parseForStatement f p with
      | .ok p1 s => .ok p1 (some s)
      | .err e => .err e
      | .lexErr e => .lexErr e
      | .fuelOut => .fuelOut
    else if p.check .WHILE then
      match parseWhileStatement f p with
      | .ok p1 s => .ok p1 (some s)
      | .err e => .err e
      | .lexErr e => .lexErr e
      | .fuelOut => .fuelOut
    else if p.check .ARROW then
      match parseReturnStatement f p with
      | .ok p1 s => .ok p1 (some s)
      | .err e => .err e
      | .lexErr e => .lexErr e
      | .fuelOut => .fuelOut
    else if p.check .GLOBAL &&
        (match p.peekNext with
         | some t => t.type = .EQUALS
         | none => false) then
      let nameToken := p.peek
      let p1 := (p.advance).2
      let p2 := (p1.advance).2
      if p2.check .LPAREN then
        match parseFunctionDefinition f p2 nameToken.value nameToken.line
            nameToken.column true with
        | .ok p3 s => .ok p3 (some s)
        | .err e => .err e
        | .lexErr e => .lexErr e
        | .fuelOut => .fuelOut
      else
        match parseExpression f p2 with
        | .ok p3 value =>
          .ok p3 (some (.var nameToken.value value true nameToken.line
            nameToken.column))
        | .err e => .err e
        | .lexErr e => .lexErr e
        | .fuelOut => .fuelOut
    else if p.check .IDENTIFIER &&
        (match p.peekNext with
         | some t => t.type = .LBRACKET
         | none => false) then
      let nameToken := p.peek
      let p1 := (p.advance).2
      match parseArrayIndex f p1
          (.ident nameToken.value nameToken.line nameToken.column) with
      | .ok p2 arrayExpr =>
        if p2.check .EQUALS then
          let p3 := (p2.advance).2
          match parseExpression f p3 with
          | .ok p4 value =>
            match arrayExpr with
            | .arrayIndex a i _ _ =>
              .ok p4 (some (.idxAssign a i value nameToken.line
                nameToken.column))
            | _ =>
              .err ⟨"Can only assign to array variable, not expression",
                nameToken.line, nameToken.column⟩
          | .err e => .err e
          | .lexErr e => .lexErr e
          | .fuelOut => .fuelOut
        else .ok p2 (some (.exprS arrayExpr))
      | .err e => .err e
      | .lexErr e => .lexErr e
      | .fuelOut => .fuelOut
    else if p.check .IDENTIFIER &&
        (match p.peekNext with
         | some t => t.type = .EQUALS
         | none => false) then
      let nameToken := p.peek
      let p1 := (p.advance).2
      let p2 := (p1.advance).2
      if p2.check .LPAREN then
        match parseFunctionDefinition f p2 nameToken.value nameToken.line
            nameToken.column false with
        | .ok p3 s => .ok p3 (some s)
        | .err e => .err e
        | .lexErr e => .lexErr e
        | .fuelOut => .fuelOut
      else
        match parseExpression f p2 with
        | .ok p3 value =>
          .ok p3 (some (.var nameToken.value value false nameToken.line
            nameToken.column))
        | .err e => .err e
        | .lexErr e => .lexErr e
        | .fuelOut => .fuelOut
    else
      match parseExpression f p with
      | .ok p1 e => .ok p1 (some (.exprS e))
      | .err e => .err e
      | .lexErr e => .lexErr e
      | .fuelOut => .fuelOut
termination_by structural fuel _ => fuel

def parseFunctionDefinition :
    Nat → ParserState → String → Nat → Nat → Bool → PResult Stmt
  | 0, _, _, _, _, _ => .fuelOut
  | f + 1, p, name, line, column, isGlobal =>
    match parseParameterList f p with
    | .ok p1 params =>
      match (if p1.check .LBRACKET then parseStyleList f p1
        else .ok p1 []) with
      | .ok p2 styles =>
        match consumeP p2 .LBRACE "Expected opening brace to start function body" with
        | .error e => .err e
        | .ok (_, p3) =>
          match parseStatementBlock f p3 [] with
          | .ok p4 body =>
            match consumeP p4 .RBRACE "Expected closing brace to end function body" with
            | .error e => .err e
            | .ok (_, p5) =>
              .ok p5 (.fnDecl name params styles body isGlobal line column)
          | .err e => .err e
          | .lexErr e => .lexErr e
          | .fuelOut => .fuelOut
      | .err e => .err e
      | .lexErr e => .lexErr e
      | .fuelOut => .fuelOut
    | .err e => .err e
    | .lexErr e => .lexErr e
    | .fuelOut => .fuelOut
termination_by structural fuel _ _ _ _ _ => fuel

def parseIfStatement : Nat → ParserState → PResult Stmt
  | 0, _ => .fuelOut
  | f + 1, p =>
    let (ifToken, p1) := p.advance
    let p2 := skipNewlinesP f p1
    match consumeP p2 .LPAREN "Expected ( after if" with
    | .error e => .err e
    | .ok (_, p3) =>
      let p4 := skipNewlinesP f p3
      match parseExpression f p4 with
      | .ok p5 condition =>
        let p6 := skipNewlinesP f p5
        match consumeP p6 .RPAREN "Expected ) after if condition" with
        | .error e => .err e
        | .ok (_, p7) =>
          let p8 := skipNewlinesP f p7
          match consumeP p8 .LBRACE "Expected opening brace after if condition" with
          | .error e => .err e
          | .ok (_, p9) =>
            match parseStatementBlock f p9 [] with
            | .ok p10 thenB =>
              match consumeP p10 .RBRACE "Expected closing brace to end if block" with
              | .error e => .err e
              | .ok (_, p11) =>
                let p12 := skipNewlinesP f p11
                match parseElseChain f p12 [] with
                | .ok p13 (elseIfs, elseB) =>
                  .ok p13 (.ifS condition thenB elseIfs elseB
                    ifToken.line ifToken.column)
                | .err e => .err e
                | .lexErr e => .lexErr e
                | .fuelOut => .fuelOut
            | .err e => .err e
            | .lexErr e => .lexErr e
            | .fuelOut => .fuelOut
      | .err e => .err e
      | .lexErr e => .lexErr e
      | .fuelOut => .fuelOut
termination_by structural fuel _ => fuel

/-- The while (check ELSE) collection loop of parseIfStatement. -/
def parseElseChain :
    Nat → ParserState → List (Expr × List Stmt) →
      PResult (List (Expr × List Stmt) × Option (List Stmt))
  | 0, _, _ => .fuelOut
  | f + 1, p, acc =>
    if p.check .ELSE then
      let p1 := (p.advance).2
      let p2 := skipNewlinesP f p1
      if p2.check .IF then
        let p3 := (p2.advance).2
        let p4 := skipNewlinesP f p3
        match consumeP p4 .LPAREN "Expected ( after else if" with
        | .error e => .err e
        | .ok (_, p5) =>
          let p6 := skipNewlinesP f p5
          match parseExpression f p6 with
          | .ok p7 cond =>
            let p8 := skipNewlinesP f p7
            match consumeP p8 .RPAREN "Expected ) after else if condition"
              with
            | .error e => .err e
            | .ok (_, p9) =>
              let p10 := skipNewlinesP f p9
              match consumeP p10 .LBRACE
                  "Expected opening brace after else if condition" with
              | .error e => .err e
              | .ok (_, p11) =>
                match parseStatementBlock f p11 [] with
                | .ok p12 thenB =>
                  match consumeP p12 .RBRACE
                      "Expected closing brace to end else if block" with
                  | .error e => .err e
                  | .ok (_, p13) =>
                    let p14 := skipNewlinesP f p13
                    parseElseChain f p14 (acc ++ [(cond, thenB)])
                | .err e => .err e
                | .lexErr e => .lexErr e
                | .fuelOut => .fuelOut
          | .err e => .err e
          | .lexErr e => .lexErr e
          | .fuelOut => .fuelOut
      else
        match consumeP p2 .LBRACE "Expected opening brace after else" with
        | .error e => .err e
        | .ok (_, p3) =>
          match parseStatementBlock f p3 [] with
          | .ok p4 elseB =>
            match consumeP p4 .RBRACE
                "Expected closing brace to end else block" with
            | .error e => .err e
            | .ok (_, p5) => .ok p5 (acc, some elseB)
          | .err e => .err e
          | .lexErr e => .lexErr e
          | .fuelOut => .fuelOut
    else .ok p (acc, none)
termination_by structural fuel _ _ => fuel

def parseForStatement : Nat → ParserState → PResult Stmt
  | 0, _ => .fuelOut
  | f + 1, p =>
    let (forToken, p1) := p.advance
    let p2 := skipNewlinesP f p1
    match consumeP p2 .LPAREN "Expected ( after for" with
    | .error e => .err e
    | .ok (_, p3) =>
      let p4 := skipNewlinesP f p3
      match parseStatement f p4 with
      | .ok _ none =>
        .err ⟨"Expected initialization in for loop", forToken.line,
          forToken.column⟩
      | .ok p5 (some init) =>
        let p6 := skipNewlinesP f p5
        match consumeP p6 .COMMA "Expected , after for loop initialization"
          with
        | .error e => .err e
        | .ok (_, p7) =>
          let p8 := skipNewlinesP f p7
          match parseExpression f p8 with
          | .ok p9 condition =>
            let p10 := skipNewlinesP f p9
            match consumeP p10 .COMMA "Expected , after for loop condition"
              with
            | .error e => .err e
            | .ok (_, p11) =>
              let p12 := skipNewlinesP f p11
              match parseExpression f p12 with
              | .ok p13 update =>
                let p14 := skipNewlinesP f p13
                match consumeP p14 .RPAREN
                    "Expected ) after for loop header" with
                | .error e => .err e
                | .ok (_, p15) =>
                  let p16 := skipNewlinesP f p15
                  match consumeP p16 .LBRACE
                      "Expected opening brace after for loop header" with
                  | .error e => .err e
                  | .ok (_, p17) =>
                    match parseStatementBlock f p17 [] with
                    | .ok p18 body =>
                      match consumeP p18 .RBRACE
                          "Expected closing brace to end for loop body" with
                      | .error e => .err e
                      | .ok (_, p19) =>
                        .ok p19 (.forS init condition update body
                          forToken.line forToken.column)
                    | .err e => .err e
                    | .lexErr e => .lexErr e
                    | .fuelOut => .fuelOut
              | .err e => .err e
              | .lexErr e => .lexErr e
              | .fuelOut => .fuelOut
          | .err e => .err e
          | .lexErr e => .lexErr e
          | .fuelOut => .fuelOut
      | .err e => .err e
      | .lexErr e => .lexErr e
      | .fuelOut => .fuelOut
termination_by structural fuel _ => fuel

def parseWhileStatement : Nat → ParserState → PResult Stmt
  | 0, _ => .fuelOut
  | f + 1, p =>
    let (whileToken, p1) := p.advance
    let p2 := skipNewlinesP f p1
    match consumeP p2 .LPAREN "Expected ( after while" with
    | .error e => .err e
    | .ok (_, p3) =>
      let p4 := skipNewlinesP f p3
      match parseExpression f p4 with
      | .ok p5 condition =>
        let p6 := skipNewlinesP f p5
        match consumeP p6 .RPAREN "Expected ) after while condition" with
        | .error e => .err e
        | .ok (_, p7) =>
          let p8 := skipNewlinesP f p7
          match consumeP p8 .LBRACE
              "Expected opening brace after while condition" with
          | .error e => .err e
          | .ok (_, p9) =>
            match parseStatementBlock f p9 [] with
            | .ok p10 body =>
              match consumeP p10 .RBRACE
                  "Expected closing brace to end while loop body" with
              | .error e => .err e
              | .ok (_, p11) =>
                .ok p11 (.whileS condition body whileToken.line
                  whileToken.column)
            | .err e => .err e
            | .lexErr e => .lexErr e
            | .fuelOut => .fuelOut
      | .err e => .err e
      | .lexErr e => .lexErr e
      | .fuelOut => .fuelOut
termination_by structural fuel _ => fuel

def parseReturnStatement : Nat → ParserState → PResult Stmt
  | 0, _ => .fuelOut
  | f + 1, p =>
    let (arrowToken, p1) := p.advance
    let p2 := skipNewlinesP f p1
    if p2.check .NEWLINE || p2.check .RBRACE || p2.isAtEnd then
      .ok p2 (.ret none arrowToken.line arrowToken.column)
    else
      match parseExpression f p2 with
      | .ok p3 value =>
        .ok p3 (.ret (some value) arrowToken.line arrowToken.column)
      | .err e => .err e
      | .lexErr e => .lexErr e
      | .fuelOut => .fuelOut
termination_by structural fuel _ => fuel

def parseStatementBlock : Nat → ParserState → List Stmt → PResult (List Stmt)
  | 0, _, _ => .fuelOut
  | f + 1, p, acc =>
    if !p.check .RBRACE && !p.isAtEnd then
      if p.check .NEWLINE then parseStatementBlock f (p.advance).2 acc
      else
        match parseStatement f p with
        | .ok p1 (some s) => parseStatementBlock f p1 (acc ++ [s])
        | .ok p1 none => parseStatementBlock f p1 acc
        | .err e => .err e
        | .lexErr e => .lexErr e
        | .fuelOut => .fuelOut
    else .ok p acc
termination_by structural fuel _ _ => fuel

/-- The do/while body of parseParameterList, looping while a comma
    follows, then the closing parenthesis. -/
def parseParameterItems : Nat → ParserState → List String →
    PResult (List String)
  | 0, _, _ => .fuelOut
  | f + 1, p, acc =>
    let p1 := if p.check .COMMA then (p.advance).2 else p
    if p1.check .IDENTIFIER then
      let (t, p2) := p1.advance
      if p2.check .COMMA then parseParameterItems f p2 (acc ++ [t.value])
      else
        match consumeP p2 .RPAREN "Expected ) after parameter list" with
        | .error e => .err e
        | .ok (_, p3) => .ok p3 (acc ++ [t.value])
    else if !p1.check .RPAREN then
      .err ⟨"Expected parameter name (identifier)", p1.peek.line,
        p1.peek.column⟩
    else
      if p1.check .COMMA then parseParameterItems f p1 acc
      else
        match consumeP p1 .RPAREN "Expected ) after parameter list" with
        | .error e => .err e
        | .ok (_, p2) => .ok p2 acc
termination_by structural fuel _ _ => fuel

def parseParameterList : Nat → ParserState → PResult (List String)
  | 0, _ => .fuelOut
  | f + 1, p =>
    match consumeP p .LPAREN "Expected ( to start parameter list" with
    | .error e => .err e
    | .ok (_, p1) =>
      if p1.check .RPAREN then .ok (p1.advance).2 []
      else parseParameterItems f p1 []

/-- The do/while body of parseStyleList. -/
def parseStyleItems : Nat → ParserState → List String → PResult (List String)
  | 0, _, _ => .fuelOut
  | f + 1, p, acc =>
    let p1 := if p.check .COMMA then (p.advance).2 else p
    if p1.check .NAME then
      let (t, p2) := p1.advance
      if p2.check .COMMA then parseStyleItems f p2 (acc ++ [t.value])
      else
        match consumeP p2 .RBRACKET "Expected ] after style list" with
        | .error e => .err e
        | .ok (_, p3) => .ok p3 (acc ++ [t.value])
    else if !p1.check .RBRACKET then
      .err ⟨"Expected style class name", p1.peek.line, p1.peek.column⟩
    else
      if p1.check .COMMA then parseStyleItems f p1 acc
      else
        match consumeP p1 .RBRACKET "Expected ] after style list" with
        | .error e => .err e
        | .ok (_, p2) => .ok p2 acc
termination_by structural fuel _ _ => fuel

def parseStyleList : Nat → ParserState → PResult (List String)
  | 0, _ => .fuelOut
  | f + 1, p =>
    match consumeP p .LBRACKET "Expected [ to start style list" with
    | .error e => .err e
    | .ok (_, p1) =>
      if p1.check .RBRACKET then .ok (p1.advance).2 []
      else parseStyleItems f p1 []

def parseExpression : Nat → ParserState → PResult Expr
  | 0, _ => .fuelOut
  | f + 1, p => parseLogicalOr f p
termination_by structural fuel _ => fuel

def parseLogicalOr : Nat → ParserState → PResult Expr
  | 0, _ => .fuelOut
  | f + 1, p =>
    match parseLogicalAnd f p with
    | .ok p1 left => parseLogicalOrLoop f p1 left
    | .err e => .err e
    | .lexErr e => .lexErr e
    | .fuelOut => .fuelOut
termination_by structural fuel _ => fuel

def parseLogicalOrLoop : Nat → ParserState → Expr → PResult Expr
  | 0, _, _ => .fuelOut
  | f + 1, p, left =>
    if p.check .OR then
      let (op, p1) := p.advance
      let p2 := skipNewlinesP f p1
      match parseLogicalAnd f p2 with
      | .ok p3 right =>
        parseLogicalOrLoop f p3 (.binaryOp "||" left right op.line op.column)
      | .err e => .err e
      | .lexErr e => .lexErr e
      | .fuelOut => .fuelOut
    else .ok p left
termination_by structural fuel _ _ => fuel

def parseLogicalAnd : Nat → ParserState → PResult Expr
  | 0, _ => .fuelOut
  | f + 1, p =>
    match parseComparison f p with
    | .ok p1 left => parseLogicalAndLoop f p1 left
    | .err e => .err e
    | .lexErr e => .lexErr e
    | .fuelOut => .fuelOut
termination_by structural fuel _ => fuel

def parseLogicalAndLoop : Nat → ParserState → Expr → PResult Expr
  | 0, _, _ => .fuelOut
  | f + 1, p, left =>
    if p.check .AND then
      let (op, p1) := p.advance
      let p2 := skipNewlinesP f p1
      match parseComparison f p2 with
      | .ok p3 right =>
        parseLogicalAndLoop f p3 (.binaryOp "&&" left right op.line op.column)
      | .err e => .err e
      | .lexErr e => .lexErr e
      | .fuelOut => .fuelOut
    else .ok p left
termination_by structural fuel _ _ => fuel

/-- part_000 Parser.parseComparison: a while loop over the six comparison
    operators, folding to the left. -/
def parseComparison : Nat → ParserState → PResult Expr
  | 0, _ => .fuelOut
  | f + 1, p =>
    match parseAdditive f p with
    | .ok p1 left => parseComparisonLoop f p1 left
    | .err e => .err e
    | .lexErr e => .lexErr e
    | .fuelOut => .fuelOut
termination_by structural fuel _ => fuel

def parseComparisonLoop : Nat → ParserState → Expr → PResult Expr
  | 0, _, _ => .fuelOut
  | f + 1, p, left =>
    if p.check .EQUALS_EQUALS || p.check .NOT_EQUALS ||
        p.check .LESS_THAN || p.check .LESS_THAN_EQUALS ||
        p.check .GREATER_THAN || p.check .GREATER_THAN_EQUALS then
      let (op, p1) := p.advance
      let p2 := skipNewlinesP f p1
      match parseAdditive f p2 with
      | .ok p3 right =>
        parseComparisonLoop f p3
          (.binaryOp op.value left right op.line op.column)
      | .err e => .err e
      | .lexErr e => .lexErr e
      | .fuelOut => .fuelOut
    else .ok p left
termination_by structural fuel _ _ => fuel

def parseAdditive : Nat → ParserState → PResult Expr
  | 0, _ => .fuelOut
  | f + 1, p =>
    match parseMultiplicative f p with
    | .ok p1 left => parseAdditiveLoop f p1 left
    | .err e => .err e
    | .lexErr e => .lexErr e
    | .fuelOut => .fuelOut
termination_by structural fuel _ => fuel

def parseAdditiveLoop : Nat → ParserState → Expr → PResult Expr
  | 0, _, _ => .fuelOut
  | f + 1, p, left =>
    if p.check .PLUS || p.check .MINUS then
      let (op, p1) := p.advance
      let p2 := skipNewlinesP f p1
      match parseMultiplicative f p2 with
      | .ok p3 right =>
        parseAdditiveLoop f p3
          (.binaryOp op.value left right op.line op.column)
      | .err e => .err e
      | .lexErr e => .lexErr e
      | .fuelOut => .fuelOut
    else .ok p left
termination_by structural fuel _ _ => fuel

def parseMultiplicative : Nat → ParserState → PResult Expr
  | 0, _ => .fuelOut
  | f + 1, p =>
    match parseUnary f p with
    | .ok p1 left => parseMultiplicativeLoop f p1 left
    | .err e => .err e
    | .lexErr e => .lexErr e
    | .fuelOut => .fuelOut
termination_by structural fuel _ => fuel

def parseMultiplicativeLoop : Nat → ParserState → Expr → PResult Expr
  | 0, _, _ => .fuelOut
  | f + 1, p, left =>
    if p.check .STAR || p.check .SLASH || p.check .PERCENT then
      let (op, p1) := p.advance
      let p2 := skipNewlinesP f p1
      match parseUnary f p2 with
      | .ok p3 right =>
        parseMultiplicativeLoop f p3
          (.binaryOp op.value left right op.line op.column)
      | .err e => .err e
      | .lexErr e => .lexErr e
      | .fuelOut => .fuelOut
    else .ok p left
termination_by structural fuel _ _ => fuel

def parseUnary : Nat → ParserState → PResult Expr
  | 0, _ => .fuelOut
  | f + 1, p =>
    if p.check .PLUS_PLUS || p.check .MINUS_MINUS then
      let (op, p1) := p.advance
      let p2 := skipNewlinesP f p1
      if !p2.check .IDENTIFIER && !p2.check .GLOBAL then
        .err ⟨"Expected identifier after " ++ op.value, p2.peek.line,
          p2.peek.column⟩
      else
        let (operand, p3) := p2.advance
        .ok p3 (.unaryOp op.value
          (.ident operand.value operand.line operand.column) true
          op.line op.column)
    else if p.check .NOT then
      let (op, p1) := p.advance
      let p2 := skipNewlinesP f p1
      match parseUnary f p2 with
      | .ok p3 operand =>
        .ok p3 (.unaryOp "!" operand true op.line op.column)
      | .err e => .err e
      | .lexErr e => .lexErr e
      | .fuelOut => .fuelOut
    else if p.check .MINUS then
      let (op, p1) := p.advance
      let p2 := skipNewlinesP f p1
      match parseUnary f p2 with
      | .ok p3 operand =>
        .ok p3 (.unaryOp "-" operand true op.line op.column)
      | .err e => .err e
      | .lexErr e => .lexErr e
      | .fuelOut => .fuelOut
    else
      match parsePrimary f p with
      | .ok p1 expr =>
        match expr with
        | .ident _ _ _ =>
          if p1.check .PLUS_PLUS || p1.check .MINUS_MINUS then
            let (op, p2) := p1.advance
            .ok p2 (.unaryOp op.value expr false expr.line expr.column)
          else .ok p1 expr
        | _ => .ok p1 expr
      | .err e => .err e
      | .lexErr e => .lexErr e
      | .fuelOut => .fuelOut
termination_by structural fuel _ => fuel

def parsePrimary : Nat → ParserState → PResult Expr
  | 0, _ => .fuelOut
  | f + 1, p =>
    if p.check .LPAREN then
      let p1 := (p.advance).2
      let p2 := skipNewlinesP f p1
      match parseExpression f p2 with
      | .ok p3 expr =>
        let p4 := skipNewlinesP f p3
        match consumeP p4 .RPAREN "Expected ) after expression" with
        | .error e => .err e
        | .ok (_, p5) => .ok p5 expr
      | .err e => .err e
      | .lexErr e => .lexErr e
      | .fuelOut => .fuelOut
    else if p.check .BOOLEAN then
      let (t, p1) := p.advance
      .ok p1 (.boolE (t.value = "true") t.line t.column)
    else if p.check .NUMBER then
      let (t, p1) := p.advance
      .ok p1 (.numE ((parseFloatOpt t.value).getD 0) t.line t.column)
    else if p.check .STRING then
      let (t, p1) := p.advance
      .ok p1 (.strE t.value true t.line t.column)
    else if p.check .TEMPLATE_STRING then
      let (t, p1) := p.advance
      match t.templateParts with
      | none =>
        .err ⟨"Template string token missing parts", t.line, t.column⟩
      | some parts =>
        match parseTemplatePartList f parts [] with
        | .ok _ astParts => .ok p1 (.templateStr astParts t.line t.column)
        | .err e => .err e
        | .lexErr e => .lexErr e
        | .fuelOut => .fuelOut
    else if p.check .LITERAL_STRING then
      let (t, p1) := p.advance
      .ok p1 (.strE t.value false t.line t.column)
    else if p.check .GLOBAL then
      let (t, p1) := p.advance
      if p1.check .LPAREN then parseFunctionCall f p1 t.value t.line t.column
      else if p1.check .LBRACKET then
        parseArrayIndex f p1 (.ident t.value t.line t.column)
      else .ok p1 (.ident t.value t.line t.column)
    else if p.check .IDENTIFIER then
      let (t, p1) := p.advance
      if p1.check .LPAREN then parseFunctionCall f p1 t.value t.line t.column
      else if p1.check .LBRACKET then
        parseArrayIndex f p1 (.ident t.value t.line t.column)
      else .ok p1 (.ident t.value t.line t.column)
    else if p.check .AT then
      let (t, p1) := p.advance
      if p1.check .LPAREN then parseAnonymousFunction f p1 t.line t.column
      else
        .err ⟨"Unexpected @ token - expected identifier or function call",
          t.line, t.column⟩
    else if p.check .LBRACKET then parseArrayLiteral f p
    else if p.check .LBRACE then parseBlock f p
    else
      .err ⟨"Unexpected token: " ++ p.peek.value, p.peek.line, p.peek.column⟩
termination_by structural fuel _ => fuel

/-- part_000 Parser.parseTemplateString's part loop: each expression part
    is lexed and parsed by a fresh Lexer and Parser via
    parseExpression. -/
def parseTemplatePartList :
    Nat → List TemplatePart → List TemplatePartAst →
      PResult (List TemplatePartAst)
  | 0, _, _ => .fuelOut
  | _ + 1, [], acc => .ok ⟨[], 0⟩ acc
  | f + 1, part :: rest, acc =>
    match part with
    | .text s => parseTemplatePartList f rest (acc ++ [.text s])
    | .exprPart src =>
      match Lexer.tokenize f src with
      | .err e => .lexErr e
      | .fuelOut => .fuelOut
      | .ok _ toks =>
        match parseExpression f ⟨toks, 0⟩ with
        | .ok _ e => parseTemplatePartList f rest (acc ++ [.exprPart e])
        | .err e => .err e
        | .lexErr e => .lexErr e
        | .fuelOut => .fuelOut
termination_by structural fuel _ _ => fuel

def parseFunctionCall : Nat → ParserState → String → Nat → Nat → PResult Expr
  | 0, _, _, _, _ => .fuelOut
  | f + 1, p, name, line, column =>
    match parseArgumentList f p with
    | .ok p1 args => .ok p1 (.call name args line column)
    | .err e => .err e
    | .lexErr e => .lexErr e
    | .fuelOut => .fuelOut
termination_by structural fuel _ _ _ _ => fuel

/-- The do/while body of parseArgumentList. -/
def parseArgumentItems : Nat → ParserState → List Expr → PResult (List Expr)
  | 0, _, _ => .fuelOut
  | f + 1, p, acc =>
    let p1 := if p.check .COMMA then skipNewlinesP f (p.advance).2 else p
    if !p1.check .RPAREN then
      match parseExpression f p1 with
      | .ok p2 arg =>
        let p3 := skipNewlinesP f p2
        if p3.check .COMMA then parseArgumentItems f p3 (acc ++ [arg])
        else
          match consumeP p3 .RPAREN "Expected ) after argument list" with
          | .error e => .err e
          | .ok (_, p4) => .ok p4 (acc ++ [arg])
      | .err e => .err e
      | .lexErr e => .lexErr e
      | .fuelOut => .fuelOut
    else
      if p1.check .COMMA then parseArgumentItems f p1 acc
      else
        match consumeP p1 .RPAREN "Expected ) after argument list" with
        | .error e => .err e
        | .ok (_, p2) => .ok p2 acc
termination_by structural fuel _ _ => fuel

def parseArgumentList : Nat → ParserState → PResult (List Expr)
  | 0, _ => .fuelOut
  | f + 1, p =>
    match consumeP p .LPAREN "Expected ( to start argument list" with
    | .error e => .err e
    | .ok (_, p1) =>
      let p2 := skipNewlinesP f p1
      if p2.check .RPAREN then .ok (p2.advance).2 []
      else parseArgumentItems f p2 []
termination_by structural fuel _ => fuel

def parseAnonymousFunction : Nat → ParserState → Nat → Nat → PResult Expr
  | 0, _, _, _ => .fuelOut
  | f + 1, p, line, column =>
    match parseArgumentList f p with
    | .ok p1 args =>
      match (if p1.check .LBRACKET then parseStyleList f p1
        else .ok p1 []) with
      | .ok p2 styles =>
        match consumeP p2 .LPAREN
            "Expected () to invoke anonymous function" with
        | .error e => .err e
        | .ok (_, p3) =>
          match consumeP p3 .RPAREN
              "Expected ) to complete anonymous function invocation" with
          | .error e => .err e
          | .ok (_, p4) => .ok p4 (.anonFn args styles line column)
      | .err e => .err e
      | .lexErr e => .lexErr e
      | .fuelOut => .fuelOut
    | .err e => .err e
    | .lexErr e => .lexErr e
    | .fuelOut => .fuelOut
termination_by structural fuel _ _ _ => fuel

def parseBlock : Nat → ParserState → PResult Expr
  | 0, _ => .fuelOut
  | f + 1, p =>
    let (token, p1) := p.advance
    let p2 := skipNewlinesP f p1
    match parseStatementBlock f p2 [] with
    | .ok p3 body =>
      match consumeP p3 .RBRACE "Expected closing brace after block content"
        with
      | .error e => .err e
      | .ok (_, p4) =>
        match (if p4.check .LBRACKET then parseStyleList f p4
          else .ok p4 []) with
        | .ok p5 styles =>
          .ok p5 (.blockE body styles token.line token.column)
        | .err e => .err e
        | .lexErr e => .lexErr e
        | .fuelOut => .fuelOut
    | .err e => .err e
    | .lexErr e => .lexErr e
    | .fuelOut => .fuelOut
termination_by structural fuel _ => fuel

/-- The element loop of parseArrayLiteral. -/
def parseArrayElems : Nat → ParserState → List Expr → Nat → Nat →
    PResult Expr
  | 0, _, _, _, _ => .fuelOut
  | f + 1, p, acc, line, column =>
    if !p.check .RBRACKET && !p.isAtEnd then
      let p1 := skipNewlinesP f p
      match parseExpression f p1 with
      | .ok p2 e =>
        let p3 := skipNewlinesP f p2
        if p3.check .COMMA then
          parseArrayElems f (skipNewlinesP f (p3.advance).2) (acc ++ [e])
            line column
        else if !p3.check .RBRACKET then
          .err ⟨"Expected , or ] in array literal", p3.peek.line,
            p3.peek.column⟩
        else parseArrayElems f p3 (acc ++ [e]) line column
      | .err e => .err e
      | .lexErr e => .lexErr e
      | .fuelOut => .fuelOut
    else
      match consumeP p .RBRACKET "Expected ] after array elements" with
      | .error e => .err e
      | .ok (_, p1) => .ok p1 (.arrE acc line column)
termination_by structural fuel _ _ _ _ => fuel

def parseArrayLiteral : Nat → ParserState → PResult Expr
  | 0, _ => .fuelOut
  | f + 1, p =>
    let (token, p1) := p.advance
    let p2 := skipNewlinesP f p1
    if p2.check .RBRACKET then
      .ok (p2.advance).2 (.arrE [] token.line token.column)
    else parseArrayElems f p2 [] token.line token.column
termination_by structural fuel _ => fuel

def parseArrayIndex : Nat → ParserState → Expr → PResult Expr
  | 0, _, _ => .fuelOut
  | f + 1, p, array =>
    let (token, p1) := p.advance
    let p2 := skipNewlinesP f p1
    match parseExpression f p2 with
    | .ok p3 index =>
      let p4 := skipNewlinesP f p3
      match consumeP p4 .RBRACKET "Expected ] after array index" with
      | .error e => .err e
      | .ok (_, p5) =>
        let indexNode := Expr.arrayIndex array index token.line token.column
        if p5.check .LBRACKET then parseArrayIndex f p5 indexNode
        else .ok p5 indexNode
    | .err e => .err e
    | .lexErr e => .lexErr e
    | .fuelOut => .fuelOut
termination_by structural fuel _ _ => fuel

end

/-- part_000 Parser.parse: the program is the list of parsed top-level
    statements. -/
def Parser.parse (fuel : Nat) (tokens : List Token) : PResult (List Stmt) :=
  parseStatements fuel ⟨tokens, 0⟩ []

/- ======================= Standard library =============================
   src/src/stdlib.ts.  Built-ins are `(args, line, column) → value`
   functions that raise RuntimeError on bad argument counts or types. -/

/-- stdlib.ts, stdlib_heading: requires exactly two arguments; the level
    must coerce by Number() to a value in [1, 6]; the result is
    level-many hash marks (String.repeat truncates the count toward
    zero), a space and the String() form of the text argument, flagged
    as markdown. -/
def stdlib_heading (args : List EvaluatedValue) (line column : Nat) :
    Except RuntimeError EvaluatedValue :=
  match args with
  | [a0, a1] =>
    (match jsNumberOpt a0.value with
    | none =>
      .error ⟨"@heading() level must be between 1 and 6, got NaN",
        line, column⟩
    | some level =>
      if level < 1 ∨ 6 < level then
        .error ⟨"@heading() level must be between 1 and 6, got " ++
          jsNumToString level, line, column⟩
      else
        .ok (.mk
          (.str (String.mk (List.replicate (ratTruncToNat level) '#') ++
            " " ++ jsToString a1.value))
          true none none))
  | _ =>
    .error ⟨"@heading() expects 2 arguments (level, text), got " ++
      Nat.repr args.length, line, column⟩

theorem ratTruncToNat_natCast (n : Nat) : ratTruncToNat (n : Rat) = n := by
  simp [ratTruncToNat, Rat.num_natCast, Rat.den_natCast]

/- =========================== Claim C8 ================================ -/

/-- **C8**: @heading raises a runtime error at the call position whenever
    the argument count differs from 2 or the level argument does not
    coerce to a number in [1, 6]; for an integer level n in 1..6 it
    returns the markdown string of n hash marks, a space and the text. -/
theorem stdlib_heading_level_bounds :
    (∀ (args : List EvaluatedValue) (l c : Nat), args.length ≠ 2 →
      ∃ e : RuntimeError, stdlib_heading args l c = .error e ∧
        e.line = l ∧ e.column = c) ∧
    (∀ (a0 a1 : EvaluatedValue) (l c : Nat),
      (jsNumberOpt a0.value = none ∨
        ∃ q, jsNumberOpt a0.value = some q ∧ (q < 1 ∨ 6 < q)) →
      ∃ e : RuntimeError, stdlib_heading [a0, a1] l c = .error e ∧
        e.line = l ∧ e.column = c) ∧
    (∀ (n : Nat) (a1 : EvaluatedValue) (l c : Nat), 1 ≤ n → n ≤ 6 →
      stdlib_heading [.mk (.num n) true none none, a1] l c =
        .ok (.mk
          (.str (String.mk (List.replicate n '#') ++ " " ++
            jsToString a1.value))
          true none none)) := by
  refine ⟨?_, ?_, ?_⟩
  · intro args l c h
    match args with
    | [] => exact ⟨_, rfl, rfl, rfl⟩
    | [a0] => exact ⟨_, rfl, rfl, rfl⟩
    | [a0, a1] => exact absurd rfl h
    | a0 :: a1 :: a2 :: rest => exact ⟨_, rfl, rfl, rfl⟩
  · intro a0 a1 l c h
    rcases h with hnone | ⟨q, hq, hrange⟩
    · exact ⟨⟨"@heading() level must be between 1 and 6, got NaN", l, c⟩,
        by rw [stdlib_heading, hnone], rfl, rfl⟩
    · refine ⟨⟨"@heading() level must be between 1 and 6, got " ++
        jsNumToString q, l, c⟩, ?_, rfl, rfl⟩
      rw [stdlib_heading, hq]
      simp only [if_pos hrange]
  · intro n a1 l c h1 h6
    have hcond : ¬((n : Rat) < 1 ∨ 6 < (n : Rat)) := by
      rintro (hlt | hgt)
      · exact Nat.not_lt.mpr h1 (by exact_mod_cast hlt)
      · exact Nat.not_lt.mpr h6 (by exact_mod_cast hgt)
    simp only [stdlib_heading, jsNumberOpt, EvaluatedValue.value]
    rw [if_neg hcond, ratTruncToNat_natCast]

/-- Witness for C8: @heading with no arguments and with level 7 raise
    runtime errors; @heading(2, "Title") yields "## Title". -/
theorem stdlib_heading_level_bounds_witness :
    (∃ e : RuntimeError, stdlib_heading [] 1 1 = .error e ∧
      e.line = 1 ∧ e.column = 1) ∧
    (∃ e : RuntimeError,
      stdlib_heading
        [.mk (.num 7) true none none, .mk (.str "x") true none none] 1 2 =
          .error e ∧ e.line = 1 ∧ e.column = 2) ∧
    stdlib_heading
      [.mk (.num 2) true none none, .mk (.str "Title") true none none] 1 3 =
        .ok (.mk (.str "## Title") true none none) := by
  refine ⟨stdlib_heading_level_bounds.1 [] 1 1 (by decide),
    stdlib_heading_level_bounds.2.1 _ _ 1 2
      (Or.inr ⟨7, rfl, Or.inr (by norm_num)⟩), ?_⟩
  have h := stdlib_heading_level_bounds.2.2 2
    (.mk (.str "Title") true none none) 1 3 (by decide) (by decide)
  exact h

/- ======================= Store lemmas ================================ -/

theorem listModify_get_self {α : Type} (l : List α) (i : Nat) (f : α → α) :
    (listModify l i f).get? i = (l.get? i).map f := by
  induction l generalizing i with
  | nil => simp [listModify]
  | cons x rest ih =>
    cases i with
    | zero => simp [listModify]
    | succ n => simpa [listModify] using ih n

theorem listModify_get_ne {α : Type} (l : List α) (i j : Nat) (f : α → α)
    (h : j ≠ i) : (listModify l i f).get? j = l.get? j := by
  induction l generalizing i j with
  | nil => simp [listModify]
  | cons x rest ih =>
    cases i with
    | zero =>
      cases j with
      | zero => exact absurd rfl h
      | succ m => simp [listModify]
    | succ n =>
      cases j with
      | zero => simp [listModify]
      | succ m =>
        simpa [listModify] using ih n m (fun hm => h (by rw [hm]))

theorem getScope_modifyScope_self (st : Store) (i : Nat) (f : Scope → Scope) :
    (st.modifyScope i f).getScope i = (st.getScope i).map f :=
  listModify_get_self st.scopes i f

theorem getScope_modifyScope_ne (st : Store) (i j : Nat) (f : Scope → Scope)
    (h : j ≠ i) : (st.modifyScope i f).getScope j = st.getScope j :=
  listModify_get_ne st.scopes i j f h

theorem getScope_setVarIn_self (st : Store) (i : Nat) (name : String)
    (v : EvaluatedValue) (sc : Scope) (h : st.getScope i = some sc) :
    (st.setVarIn i name v).getScope i =
      some { sc with vars := mapSet sc.vars name v } := by
  rw [Store.setVarIn, getScope_modifyScope_self, h, Option.map_some']

theorem getScope_setVarIn_ne (st : Store) (i j : Nat) (name : String)
    (v : EvaluatedValue) (h : j ≠ i) :
    (st.setVarIn i name v).getScope j = st.getScope j :=
  getScope_modifyScope_ne st i j _ h

theorem mapGet_mapSet_self {α : Type} (m : List (String × α)) (k : String)
    (v : α) : mapGet (mapSet m k v) k = some v := by
  induction m with
  | nil => simp [mapSet, mapGet]
  | cons p rest ih =>
    obtain ⟨k₁, v₁⟩ := p
    by_cases hk : k₁ = k
    · simp [mapSet, mapGet, hk]
    · simp [mapSet, mapGet, hk, ih]

theorem varsGet_setVarIn_self (st : Store) (i : Nat) (name : String)
    (v : EvaluatedValue) (sc : Scope) (h : st.getScope i = some sc) :
    (st.setVarIn i name v).varsGet i name = some v := by
  rw [Store.varsGet, getScope_setVarIn_self st i name v sc h]
  exact mapGet_mapSet_self sc.vars name v

theorem varsHas_exists_scope (st : Store) (i : Nat) (name : String)
    (h : st.varsHas i name = true) : ∃ sc, st.getScope i = some sc := by
  rw [Store.varsHas] at h
  rcases hsc : st.getScope i with _ | sc
  · rw [hsc] at h; exact absurd h (by simp)
  · exact ⟨sc, rfl⟩

/- =========================== Claim C1 ================================ -/

/-- **C1**: An unflagged write (`isGlobal = false`) through a scope attached
    to a global scope `g` updates the binding in `g` and touches no other
    scope — in particular it creates no local shadow in the writing scope —
    exactly when `g` already holds a binding for the name; when `g` holds no
    such binding, the write creates/updates a binding in the writing scope
    only, and touches no other scope. -/
theorem setVariable_global_shadowing_rule
    (st : Store) (self g : Nat) (sc : Scope) (name : String)
    (v : EvaluatedValue)
    (hself : st.getScope self = some sc)
    (hg : sc.globalContext = some g) :
    (st.varsHas g name = true →
      (ExecutionContext.setVariable st self name v false).varsGet g name
          = some v ∧
      ∀ j, j ≠ g →
        (ExecutionContext.setVariable st self name v false).getScope j
          = st.getScope j) ∧
    (st.varsHas g name = false →
      (ExecutionContext.setVariable st self name v false).varsGet self name
          = some v ∧
      ∀ j, j ≠ self →
        (ExecutionContext.setVariable st self name v false).getScope j
          = st.getScope j) := by
  constructor
  · intro hHas
    obtain ⟨gsc, hgsc⟩ := varsHas_exists_scope st g name hHas
    simp only [ExecutionContext.setVariable, hself, hg, hHas,
      Bool.false_eq_true, if_false, if_true]
    exact ⟨varsGet_setVarIn_self st g name v gsc hgsc,
      fun j hj => getScope_setVarIn_ne st g j name v hj⟩
  · intro hHas
    simp only [ExecutionContext.setVariable, hself, hg, hHas,
      Bool.false_eq_true, if_false]
    exact ⟨varsGet_setVarIn_self st self name v sc hself,
      fun j hj => getScope_setVarIn_ne st self j name v hj⟩

/-- Witness for C1: a two-scope store (scope 0 global holding `x`, scope 1
    attached to it); the unflagged write of `x` through scope 1 lands in
    scope 0 and leaves scope 1 untouched. -/
theorem setVariable_global_shadowing_rule_witness :
    (ExecutionContext.setVariable
        ⟨[⟨[("x", .mk (.num 1) true none none)], [], none, none⟩,
          ⟨[], [], none, some 0⟩]⟩
        1 "x" (.mk (.num 2) true none none) false).varsGet 0 "x"
      = some (.mk (.num 2) true none none) ∧
    (ExecutionContext.setVariable
        ⟨[⟨[("x", .mk (.num 1) true none none)], [], none, none⟩,
          ⟨[], [], none, some 0⟩]⟩
        1 "x" (.mk (.num 2) true none none) false).getScope 1
      = Store.getScope
        ⟨[⟨[("x", .mk (.num 1) true none none)], [], none, none⟩,
          ⟨[], [], none, some 0⟩]⟩ 1 := by
  have h := setVariable_global_shadowing_rule
    ⟨[⟨[("x", .mk (.num 1) true none none)], [], none, none⟩,
      ⟨[], [], none, some 0⟩]⟩
    1 0 ⟨[], [], none, some 0⟩ "x" (.mk (.num 2) true none none)
    (by rfl) (by rfl)
  exact ⟨(h.1 (by rfl)).1, (h.1 (by rfl)).2 1 (by decide)⟩

/- =========================== Claim C10 =============================== -/

/-- **C10**: && and || always produce a boolean scalar with isMarkdown
    false, never an operand's own value: && short-circuits a falsy left
    operand to the value false, || short-circuits a truthy left operand
    to the value true, and otherwise the result is the truthiness of the
    right operand. -/
theorem logical_ops_boolean_scalar
    (fuel : Nat) (st st1 st2 : Store) (self : Nat) (l r : Expr)
    (lv rv : EvaluatedValue) (line column : Nat) :
    (evaluateExpression fuel st self l = .ok st1 lv →
      Evaluator.toBoolean lv.value = false →
      evaluateExpression (fuel + 1) st self (.binaryOp "&&" l r line column)
        = .ok st1 (.mk (.bool false) false none none)) ∧
    (evaluateExpression fuel st self l = .ok st1 lv →
      Evaluator.toBoolean lv.value = true →
      evaluateExpression (fuel + 1) st self (.binaryOp "||" l r line column)
        = .ok st1 (.mk (.bool true) false none none)) ∧
    (evaluateExpression fuel st self l = .ok st1 lv →
      Evaluator.toBoolean lv.value = true →
      evaluateExpression fuel st1 self r = .ok st2 rv →
      evaluateExpression (fuel + 1) st self (.binaryOp "&&" l r line column)
        = .ok st2 (.mk (.bool (Evaluator.toBoolean rv.value))
            false none none)) ∧
    (evaluateExpression fuel st self l = .ok st1 lv →
      Evaluator.toBoolean lv.value = false →
      evaluateExpression fuel st1 self r = .ok st2 rv →
      evaluateExpression (fuel + 1) st self (.binaryOp "||" l r line column)
        = .ok st2 (.mk (.bool (Evaluator.toBoolean rv.value))
            false none none)) := by
  refine ⟨?_, ?_, ?_, ?_⟩
  · intro h1 hb
    simp only [evaluateExpression, h1, hb]
    simp +decide
  · intro h1 hb
    simp only [evaluateExpression, h1, hb]
    simp +decide
  · intro h1 hb h2
    simp only [evaluateExpression, h1, hb, h2]
    simp +decide
  · intro h1 hb h2
    simp only [evaluateExpression, h1, hb, h2]
    simp +decide

/-- Witness for C10: with a falsy number 0 on the left, && short-circuits
    to false; with both operands truthy, && yields the truthiness of the
    right operand (the literal true, so true). -/
theorem logical_ops_boolean_scalar_witness :
    evaluateExpression 2 ⟨[⟨[], [], none, none⟩]⟩ 0
        (.binaryOp "&&" (.numE 0 1 1) (.boolE true 1 6) 1 3)
      = .ok ⟨[⟨[], [], none, none⟩]⟩ (.mk (.bool false) false none none) ∧
    evaluateExpression 2 ⟨[⟨[], [], none, none⟩]⟩ 0
        (.binaryOp "&&" (.numE 1 1 1) (.boolE true 1 6) 1 3)
      = .ok ⟨[⟨[], [], none, none⟩]⟩ (.mk (.bool true) false none none) := by
  constructor
  · exact (logical_ops_boolean_scalar 1 ⟨[⟨[], [], none, none⟩]⟩
      ⟨[⟨[], [], none, none⟩]⟩ ⟨[⟨[], [], none, none⟩]⟩ 0
      (.numE 0 1 1) (.boolE true 1 6) (.mk (.num 0) true none none)
      (.mk (.bool true) false none none) 1 3).1 (by rfl) (by decide)
  · have h := (logical_ops_boolean_scalar 1 ⟨[⟨[], [], none, none⟩]⟩
      ⟨[⟨[], [], none, none⟩]⟩ ⟨[⟨[], [], none, none⟩]⟩ 0
      (.numE 1 1 1) (.boolE true 1 6) (.mk (.num 1) true none none)
      (.mk (.bool true) false none none) 1 3).2.2.1 (by rfl) (by decide)
      (by rfl)
    simpa using h

/- =========================== Claim C7 ================================ -/

/-- toNumber failures carry exactly the position they were given. -/
theorem toNumber_error_pos (v : Payload) (l c : Nat) (e : RuntimeError)
    (h : Evaluator.toNumber v l c = .error e) : e.line = l ∧ e.column = c := by
  cases v with
  | str s =>
    rw [Evaluator.toNumber] at h
    rcases hp : parseFloatOpt s with _ | n
    · rw [hp] at h
      cases h
      exact ⟨rfl, rfl⟩
    · rw [hp] at h
      cases h
  | num n => rw [Evaluator.toNumber] at h; cases h
  | bool b => rw [Evaluator.toNumber] at h; cases h
  | arr es =>
    rw [Evaluator.toNumber] at h
    cases h
    exact ⟨rfl, rfl⟩

/-- **C7**: for / and %, a right operand that numerically coerces to 0
    makes the whole operation raise a runtime error carrying the node
    position (never a number); when the right operand coerces to a
    nonzero number and the left coerces to a number, the exact
    quotient/remainder is returned with isMarkdown true. -/
theorem div_mod_by_zero_and_results
    (fuel : Nat) (st st1 st2 : Store) (self : Nat) (operator : String)
    (l r : Expr) (lv rv : EvaluatedValue) (line column : Nat)
    (hop : operator = "/" ∨ operator = "%")
    (h1 : evaluateExpression fuel st self l = .ok st1 lv)
    (h2 : evaluateExpression fuel st1 self r = .ok st2 rv) :
    (Evaluator.toNumber rv.value line column = .ok 0 →
      ∃ e : RuntimeError,
        evaluateExpression (fuel + 1) st self
            (.binaryOp operator l r line column)
          = .thrown st2 (.runtimeError e) ∧
        e.line = line ∧ e.column = column) ∧
    (∀ ln rn : Rat,
      Evaluator.toNumber lv.value line column = .ok ln →
      Evaluator.toNumber rv.value line column = .ok rn → rn ≠ 0 →
      evaluateExpression (fuel + 1) st self
          (.binaryOp operator l r line column)
        = .ok st2 (.mk
            (.num (if operator = "/" then ln / rn else jsRem ln rn))
            true none none)) := by
  constructor
  · intro hz
    rcases hl : Evaluator.toNumber lv.value line column with e | n
    · refine ⟨e, ?_, (toNumber_error_pos _ _ _ _ hl).1,
        (toNumber_error_pos _ _ _ _ hl).2⟩
      rcases hop with hop | hop <;>
        (subst hop; simp only [evaluateExpression, h1, h2, hl, hz];
          simp +decide)
    · rcases hop with hop | hop
      · exact ⟨⟨"Division by zero", line, column⟩, by
          subst hop; simp only [evaluateExpression, h1, h2, hl, hz];
            simp +decide, rfl, rfl⟩
      · exact ⟨⟨"Modulo by zero", line, column⟩, by
          subst hop; simp only [evaluateExpression, h1, h2, hl, hz];
            simp +decide, rfl, rfl⟩
  · intro ln rn hl hr hnz
    rcases hop with hop | hop <;>
      (subst hop; simp only [evaluateExpression, h1, h2, hl, hr];
        simp +decide [hnz])

/-- Witness for C7: 1 / 0 raises a runtime error at the node position;
    7 / 2 yields the quotient 7/2 with isMarkdown true. -/
theorem div_mod_by_zero_and_results_witness :
    (∃ e : RuntimeError,
      evaluateExpression 2 ⟨[⟨[], [], none, none⟩]⟩ 0
          (.binaryOp "/" (.numE 1 1 1) (.numE 0 1 5) 3 4)
        = .thrown ⟨[⟨[], [], none, none⟩]⟩ (.runtimeError e) ∧
      e.line = 3 ∧ e.column = 4) ∧
    evaluateExpression 2 ⟨[⟨[], [], none, none⟩]⟩ 0
        (.binaryOp "/" (.numE 7 1 1) (.numE 2 1 5) 3 4)
      = .ok ⟨[⟨[], [], none, none⟩]⟩
          (.mk (.num (7 / 2 : Rat)) true none none) := by
  constructor
  · exact (div_mod_by_zero_and_results 1 ⟨[⟨[], [], none, none⟩]⟩
      ⟨[⟨[], [], none, none⟩]⟩ ⟨[⟨[], [], none, none⟩]⟩ 0 "/"
      (.numE 1 1 1) (.numE 0 1 5) (.mk (.num 1) true none none)
      (.mk (.num 0) true none none) 3 4 (Or.inl rfl) (by rfl) (by rfl)).1
      (by rfl)
  · have h := (div_mod_by_zero_and_results 1 ⟨[⟨[], [], none, none⟩]⟩
      ⟨[⟨[], [], none, none⟩]⟩ ⟨[⟨[], [], none, none⟩]⟩ 0 "/"
      (.numE 7 1 1) (.numE 2 1 5) (.mk (.num 7) true none none)
      (.mk (.num 2) true none none) 3 4 (Or.inl rfl) (by rfl) (by rfl)).2
      7 2 (by rfl) (by rfl) (by norm_num)
    simpa using h

/- =========================== Claim C5 ================================ -/

/-- Counterexample for C5: both operands of `+` evaluate to (non-string)
    empty arrays, yet the result is the empty string (JS coerces the
    arrays to strings inside the numeric branch), not a numeric
    addition. -/
theorem plus_on_arrays_not_numeric :
    evaluateExpression 3 ⟨[⟨[], [], none, none⟩]⟩ 0
        (.binaryOp "+" (.arrE [] 1 1) (.arrE [] 1 5) 1 3)
      = .ok ⟨[⟨[], [], none, none⟩]⟩ (.mk (.str "") true none none) ∧
    isStringPayload (Payload.arr []) = false := by
  constructor
  · simp only [evaluateExpression, evalExprList]
    simp +decide [isStringPayload, jsAddNonString, toPrimNumHint, jsToString,
      EvaluatedValue.value, EvaluatedValue.isMarkdown]
  · rfl

/-- **C5 (amended)**: if either evaluated operand of `+` is a string, the
    result is their String() concatenation in operand order with
    isMarkdown the OR of the flags; otherwise, when both operands are
    numbers or booleans, the result is JS numeric addition (booleans
    coerce to 1/0) with isMarkdown true; when a non-string operand is an
    array, the JS coercion in this branch instead produces the string
    concatenation of the operands' String() forms, still with isMarkdown
    true.  In particular 1 + "2" is the string "12", "2" + 1 is "21",
    and 1 + 2 is the number 3. -/
theorem plus_overloading
    (fuel : Nat) (st st1 st2 : Store) (self : Nat) (l r : Expr)
    (lv rv : EvaluatedValue) (line column : Nat)
    (h1 : evaluateExpression fuel st self l = .ok st1 lv)
    (h2 : evaluateExpression fuel st1 self r = .ok st2 rv) :
    ((isStringPayload lv.value || isStringPayload rv.value) = true →
      evaluateExpression (fuel + 1) st self (.binaryOp "+" l r line column)
        = .ok st2 (.mk (.str (jsToString lv.value ++ jsToString rv.value))
            (lv.isMarkdown || rv.isMarkdown) none none)) ∧
    (isNumOrBool lv.value = true → isNumOrBool rv.value = true →
      evaluateExpression (fuel + 1) st self (.binaryOp "+" l r line column)
        = .ok st2 (.mk
            (.num ((primToNumOpt lv.value).getD 0 +
              (primToNumOpt rv.value).getD 0)) true none none)) ∧
    (isStringPayload lv.value = false → isStringPayload rv.value = false →
      (isArrayPayload lv.value || isArrayPayload rv.value) = true →
      evaluateExpression (fuel + 1) st self (.binaryOp "+" l r line column)
        = .ok st2 (.mk (.str (jsToString lv.value ++ jsToString rv.value))
            true none none)) ∧
    (evaluateExpression 2 ⟨[⟨[], [], none, none⟩]⟩ 0
        (.binaryOp "+" (.numE 1 1 1) (.strE "2" true 1 5) 1 3)
      = .ok ⟨[⟨[], [], none, none⟩]⟩ (.mk (.str "12") true none none)) ∧
    (evaluateExpression 2 ⟨[⟨[], [], none, none⟩]⟩ 0
        (.binaryOp "+" (.strE "2" true 1 1) (.numE 1 1 5) 1 3)
      = .ok ⟨[⟨[], [], none, none⟩]⟩ (.mk (.str "21") true none none)) ∧
    (evaluateExpression 2 ⟨[⟨[], [], none, none⟩]⟩ 0
        (.binaryOp "+" (.numE 1 1 1) (.numE 2 1 5) 1 3)
      = .ok ⟨[⟨[], [], none, none⟩]⟩ (.mk (.num 3) true none none)) := by
  refine ⟨?_, ?_, ?_, ?_, ?_, ?_⟩
  · intro hs
    simp only [evaluateExpression, h1, h2]
    simp +decide [hs]
  · intro hl hr
    simp only [evaluateExpression, h1, h2]
    have hls : isStringPayload lv.value = false := by
      cases hv : lv.value <;> simp_all [isNumOrBool, isStringPayload]
    have hrs : isStringPayload rv.value = false := by
      cases hv : rv.value <;> simp_all [isNumOrBool, isStringPayload]
    have hadd : jsAddNonString lv.value rv.value =
        .num ((primToNumOpt lv.value).getD 0 +
          (primToNumOpt rv.value).getD 0) := by
      cases hv : lv.value <;> cases hw : rv.value <;>
        simp_all [isNumOrBool, jsAddNonString, toPrimNumHint, primToNumOpt]
    simp +decide [hls, hrs, hadd]
  · intro hls hrs harr
    simp only [evaluateExpression, h1, h2]
    have hadd : jsAddNonString lv.value rv.value =
        .str (jsToString lv.value ++ jsToString rv.value) := by
      cases hv : lv.value <;> cases hw : rv.value <;>
        simp_all [isStringPayload, isArrayPayload, jsAddNonString,
          toPrimNumHint, jsToString]
    simp +decide [hls, hrs, hadd]
  · simp only [evaluateExpression]
    simp +decide [isStringPayload, jsToString, jsNumToString, convertCodeBlocks,
      convertCodeBlocksList]
  · simp only [evaluateExpression]
    simp +decide [isStringPayload, jsToString, jsNumToString, convertCodeBlocks,
      convertCodeBlocksList]
  · simp only [evaluateExpression]
    simp +decide [isStringPayload, jsAddNonString, toPrimNumHint, primToNumOpt,
      EvaluatedValue.value, EvaluatedValue.isMarkdown]
    norm_num

/-- Witness for C5: the string-concatenation conjunct applied to the
    markdown string "a" plus the number 1 yields the string "a1". -/
theorem plus_overloading_witness :
    evaluateExpression 2 ⟨[⟨[], [], none, none⟩]⟩ 0
        (.binaryOp "+" (.strE "a" true 1 1) (.numE 1 1 5) 1 3)
      = .ok ⟨[⟨[], [], none, none⟩]⟩ (.mk (.str "a1") true none none) := by
  have h := (plus_overloading 1 ⟨[⟨[], [], none, none⟩]⟩
    ⟨[⟨[], [], none, none⟩]⟩ ⟨[⟨[], [], none, none⟩]⟩ 0
    (.strE "a" true 1 1) (.numE 1 1 5) (.mk (.str "a") true none none)
    (.mk (.num 1) true none none) 1 3 (by rfl) (by rfl)).1 (by rfl)
  simpa [jsToString, jsNumToString] using h

/- =========================== Claim C2 ================================ -/

/-- Counterexample for C2: a top-level return escapes the
    evaluate(program, context) call as the thrown ReturnValue
    control-transfer itself — the outcome is the returnValue exception,
    not a runtimeError. -/
theorem top_level_return_escapes :
    Evaluator.evaluate 3 ⟨[⟨[], [], none, none⟩]⟩ 0
        [.ret (some (.numE 5 1 4)) 1 1]
      = .thrown ⟨[⟨[], [], none, none⟩]⟩
          (.returnValue (some (.mk (.num 5) true none none))) := by
  rfl

/-- **C2 (amended)**: a top-level return propagates out of the
    evaluate(program, context) call as the raw ReturnValue
    control-transfer (it is not converted into a runtime error inside
    the evaluator; the embedder's generic catch is what reports the
    failure), while a return inside a function body is caught exactly at
    the executeFunction boundary and becomes that call's result, with
    the declaration styles overriding the returned value's styles when
    the declaration has styles. -/
theorem return_unwinds_to_call_boundary
    (fuel : Nat) (st st1 st2 st3 st4 : Store) (self : Nat) (e : Expr)
    (v : EvaluatedValue) (line column : Nat) (rest : List Stmt)
    (funcDef : FunctionDefinition) (args : List EvaluatedValue) :
    (evaluateExpression fuel st self e = .ok st1 v →
      Evaluator.evaluate (fuel + 2) st self
          (.ret (some e) line column :: rest)
        = .thrown st1 (.returnValue (some v))) ∧
    (bindParams
        (st.pushScope
          ⟨[], [], some self, (st.getScope self).bind Scope.globalContext⟩)
        st.scopes.length funcDef.params args line column = .ok st2 →
      st3 = (if ExecutionContext.hasVariable fuel st2 st.scopes.length
          "@content" then st2
        else ExecutionContext.setVariable st2 st.scopes.length "@content"
          (args.headD emptyMdString) false) →
      evaluateStatementsCollect fuel st3 st.scopes.length funcDef.body []
          = .thrown st4 (.returnValue (some v)) →
      executeFunction (fuel + 1) st self funcDef args line column
        = .ok st4 (.mk v.value v.isMarkdown
            (if funcDef.styles.length > 0 then some funcDef.styles
             else v.styles) v.children)) := by
  constructor
  · intro h1
    simp only [Evaluator.evaluate, evaluateStatementsCollect,
      evaluateStatement, h1]
  · intro hbind hst3 hbody
    subst hst3
    simp only [executeFunction, hbind, hbody]

/-- Witness for C2: a no-parameter function whose body is a bare return
    of the literal string "v" produces exactly that string as the call
    result. -/
theorem return_unwinds_to_call_boundary_witness :
    executeFunction 6 ⟨[⟨[], [], none, none⟩]⟩ 0
        ⟨[], [], [.ret (some (.strE "v" false 1 1)) 1 1]⟩ [] 1 1
      = .ok ⟨[⟨[], [], none, none⟩,
          ⟨[("@content", emptyMdString)], [], some 0, none⟩]⟩
          (.mk (.str "v") false none none) := by
  have h := (return_unwinds_to_call_boundary 5 ⟨[⟨[], [], none, none⟩]⟩
    ⟨[⟨[], [], none, none⟩]⟩
    ⟨[⟨[], [], none, none⟩, ⟨[], [], some 0, none⟩]⟩
    ⟨[⟨[], [], none, none⟩,
      ⟨[("@content", emptyMdString)], [], some 0, none⟩]⟩
    ⟨[⟨[], [], none, none⟩,
      ⟨[("@content", emptyMdString)], [], some 0, none⟩]⟩
    0 (.strE "v" false 1 1) (.mk (.str "v") false none none) 1 1 []
    ⟨[], [], [.ret (some (.strE "v" false 1 1)) 1 1]⟩ []).2
    (by rfl) (by rfl) (by rfl)
  simpa using h

/- =========================== Claim C6 ================================ -/

/-- **C6**: when a user function body completes without an explicit
    return, zero produced statement-values yield the empty
    markdown-flagged string; one produced value is returned verbatim
    except that declared styles override the value's styles when the
    declaration has styles; two or more produced values yield their
    space-joined String() concatenation, isMarkdown true iff any part
    was markdown, with children exactly the produced values in order. -/
theorem function_fall_through_folding
    (fuel : Nat) (st st2 st3 st4 : Store) (self : Nat)
    (line column : Nat) (funcDef : FunctionDefinition)
    (args results : List EvaluatedValue)
    (hbind : bindParams
        (st.pushScope
          ⟨[], [], some self, (st.getScope self).bind Scope.globalContext⟩)
        st.scopes.length funcDef.params args line column = .ok st2)
    (hst3 : st3 = (if ExecutionContext.hasVariable fuel st2 st.scopes.length
        "@content" then st2
      else ExecutionContext.setVariable st2 st.scopes.length "@content"
        (args.headD emptyMdString) false))
    (hbody : evaluateStatementsCollect fuel st3 st.scopes.length
        funcDef.body [] = .ok st4 results) :
    (results = [] →
      executeFunction (fuel + 1) st self funcDef args line column
        = .ok st4 (.mk (.str "") true none none)) ∧
    (∀ r, results = [r] →
      executeFunction (fuel + 1) st self funcDef args line column
        = .ok st4 (.mk r.value r.isMarkdown
            (if funcDef.styles.length > 0 then some funcDef.styles
             else r.styles) r.children)) ∧
    (∀ r₁ r₂ tl, results = r₁ :: r₂ :: tl →
      executeFunction (fuel + 1) st self funcDef args line column
        = .ok st4 (.mk
            (.str (String.intercalate " "
              ((r₁ :: r₂ :: tl).map (fun r => jsToString r.value))))
            ((r₁ :: r₂ :: tl).any (fun r => r.isMarkdown))
            (if funcDef.styles.length > 0 then some funcDef.styles else none)
            (some (r₁ :: r₂ :: tl)))) := by
  subst hst3
  refine ⟨?_, ?_, ?_⟩
  · intro hres
    subst hres
    simp only [executeFunction, hbind, hbody]
    simp only [emptyMdString]
  · intro r hres
    subst hres
    simp only [executeFunction, hbind, hbody]
  · intro r₁ r₂ tl hres
    subst hres
    simp only [executeFunction, hbind, hbody]

/-- Witness for C6: a no-parameter, no-style function whose body produces
    the two literal strings "a" and "b" returns "a b" with exactly those
    two values as children. -/
theorem function_fall_through_folding_witness :
    executeFunction 6 ⟨[⟨[], [], none, none⟩]⟩ 0
        ⟨[], [], [.exprS (.strE "a" false 1 1), .exprS (.strE "b" false 2 1)]⟩
        [] 1 1
      = .ok ⟨[⟨[], [], none, none⟩,
          ⟨[("@content", emptyMdString)], [], some 0, none⟩]⟩
          (.mk (.str "a b") false none
            (some [.mk (.str "a") false none none,
              .mk (.str "b") false none none])) := by
  have h := (function_fall_through_folding 5 ⟨[⟨[], [], none, none⟩]⟩
    ⟨[⟨[], [], none, none⟩, ⟨[], [], some 0, none⟩]⟩
    ⟨[⟨[], [], none, none⟩,
      ⟨[("@content", emptyMdString)], [], some 0, none⟩]⟩
    ⟨[⟨[], [], none, none⟩,
      ⟨[("@content", emptyMdString)], [], some 0, none⟩]⟩
    0 1 1
    ⟨[], [], [.exprS (.strE "a" false 1 1), .exprS (.strE "b" false 2 1)]⟩
    [] [.mk (.str "a") false none none, .mk (.str "b") false none none]
    (by rfl) (by rfl) (by rfl)).2.2
    (.mk (.str "a") false none none) (.mk (.str "b") false none none) []
    (by rfl)
  simpa [jsToString] using h

/- =========================== Claim C3 ================================ -/

theorem getScope_lt_length (st : Store) (i : Nat) (sc : Scope)
    (h : st.getScope i = some sc) : i < st.scopes.length := by
  rw [Store.getScope] at h
  by_contra hge
  rw [List.get?_eq_none.mpr (Nat.le_of_not_lt hge)] at h
  cases h

theorem getScope_pushScope_self (st : Store) (sc : Scope) :
    (st.pushScope sc).getScope st.scopes.length = some sc := by
  simp [Store.pushScope, Store.getScope, List.getElem?_concat_length]

theorem getScope_pushScope_lt (st : Store) (sc : Scope) (i : Nat)
    (h : i < st.scopes.length) :
    (st.pushScope sc).getScope i = st.getScope i := by
  simp only [Store.pushScope, Store.getScope, List.get?_eq_getElem?]
  exact List.getElem?_append_left h

/-- Counterexample for C3: the caller's scope already binds "@content"
    locally; a no-argument call of a function whose body reads @content
    yields the enclosing value "outer" — the implicit binding was
    suppressed by the enclosing binding, where the claim predicts the
    empty markdown string. -/
theorem content_binding_suppressed_by_enclosing_cex :
    executeFunction 6
        ⟨[⟨[("@content", .mk (.str "outer") false none none)], [],
          none, none⟩]⟩ 0
        ⟨[], [], [.exprS (.ident "@content" 1 1)]⟩ [] 1 1
      = .ok
          ⟨[⟨[("@content", .mk (.str "outer") false none none)], [],
            none, none⟩, ⟨[], [], some 0, none⟩]⟩
          (.mk (.str "outer") false none none) ∧
    (EvaluatedValue.mk (.str "outer") false none none
      ≠ .mk (.str "") true none none) := by
  exact ⟨rfl, by simp⟩

/-- **C3 (amended)**: after positional binding, the implicit "@content"
    parameter is bound to the first argument (or the empty markdown
    string without arguments) only when no binding of "@content" is
    visible from the new call scope; a binding anywhere along the search
    chain — including the caller's (enclosing) scope — suppresses it, in
    which case the body's @content resolves to that enclosing binding. -/
theorem executeFunction_content_binding
    (fuel : Nat) (st : Store) (self : Nat) (sc : Scope)
    (args : List EvaluatedValue) (v : EvaluatedValue)
    (line column l₂ c₂ : Nat)
    (hself : st.getScope self = some sc)
    (hgnone : sc.globalContext = none) :
    (mapGet sc.vars "@content" = some v →
      executeFunction (fuel + 6) st self
          ⟨[], [], [.exprS (.ident "@content" l₂ c₂)]⟩ args line column
        = .ok (st.pushScope ⟨[], [], some self, none⟩)
            (.mk v.value v.isMarkdown v.styles v.children)) ∧
    (mapGet sc.vars "@content" = none → sc.parent = none →
      executeFunction (fuel + 6) st self
          ⟨[], [], [.exprS (.ident "@content" l₂ c₂)]⟩ args line column
        = .ok ((st.pushScope ⟨[], [], some self, none⟩).setVarIn
              st.scopes.length "@content" (args.headD emptyMdString))
            (.mk (args.headD emptyMdString).value
              (args.headD emptyMdString).isMarkdown
              (args.headD emptyMdString).styles
              (args.headD emptyMdString).children)) := by
  have hlt := getScope_lt_length st self sc hself
  have hpushSelf :
      (st.pushScope ⟨[], [], some self, none⟩).getScope self
        = st.getScope self :=
    getScope_pushScope_lt st ⟨[], [], some self, none⟩ self hlt
  have hpushN :
      (st.pushScope ⟨[], [], some self, none⟩).getScope st.scopes.length
        = some ⟨[], [], some self, none⟩ :=
    getScope_pushScope_self st ⟨[], [], some self, none⟩
  constructor
  · intro hvar
    simp +decide [executeFunction, hself, hgnone, Option.bind, bindParams,
      ExecutionContext.hasVariable, hpushN, hpushSelf, mapHas, mapGet,
      Option.isSome, evaluateStatementsCollect, evaluateStatement,
      evaluateExpression, ExecutionContext.getVariable, hvar]
  · intro hnone hparent
    have hsetN :
        ((st.pushScope ⟨[], [], some self, none⟩).setVarIn
            st.scopes.length "@content"
            (args.head?.getD emptyMdString)).getScope st.scopes.length
          = some ⟨mapSet [] "@content" (args.head?.getD emptyMdString), [],
              some self, none⟩ :=
      getScope_setVarIn_self _ _ _ _ _ hpushN
    simp +decide [executeFunction, hself, hgnone, Option.bind, bindParams,
      ExecutionContext.hasVariable, hpushN, hpushSelf, mapHas, mapGet,
      Option.isSome, hnone, hparent, ExecutionContext.setVariable,
      evaluateStatementsCollect, evaluateStatement, evaluateExpression,
      ExecutionContext.getVariable, hsetN, mapSet]

/-- Witness for C3: in a one-scope store with no visible @content, a call
    with the single argument "arg" binds @content to that argument and
    the body reads it back; with an enclosing binding "outer" present,
    the same call instead reads the enclosing value. -/
theorem executeFunction_content_binding_witness :
    executeFunction 6 ⟨[⟨[], [], none, none⟩]⟩ 0
        ⟨[], [], [.exprS (.ident "@content" 1 1)]⟩
        [.mk (.str "arg") false none none] 1 1
      = .ok ⟨[⟨[], [], none, none⟩,
          ⟨[("@content", .mk (.str "arg") false none none)], [],
            some 0, none⟩]⟩
          (.mk (.str "arg") false none none) := by
  have h := (executeFunction_content_binding 0 ⟨[⟨[], [], none, none⟩]⟩ 0
    ⟨[], [], none, none⟩ [.mk (.str "arg") false none none]
    (.mk (.str "arg") false none none) 1 1 1 1 (by rfl) (by rfl)).2
    (by rfl) (by rfl)
  simpa [Store.pushScope, Store.setVarIn, Store.modifyScope, listModify,
    mapSet, emptyMdString] using h

/- =========================== Claim C4 ================================ -/

set_option maxHeartbeats 1000000 in
/-- Counterexample for C4: the token stream of `@a < @b < @c` parses
    successfully with two comparison operators consumed at the same
    precedence level, producing the left-nested chain
    `(@a < @b) < @c` — the comparison level is chaining, not
    non-chaining. -/
theorem parseComparison_accepts_chain :
    parseComparison 8
        ⟨[⟨.IDENTIFIER, "@a", 1, 1, none⟩, ⟨.LESS_THAN, "<", 1, 4, none⟩,
          ⟨.IDENTIFIER, "@b", 1, 6, none⟩, ⟨.LESS_THAN, "<", 1, 9, none⟩,
          ⟨.IDENTIFIER, "@c", 1, 11, none⟩, ⟨.EOF, "", 1, 13, none⟩], 0⟩
      = .ok
          ⟨[⟨.IDENTIFIER, "@a", 1, 1, none⟩, ⟨.LESS_THAN, "<", 1, 4, none⟩,
            ⟨.IDENTIFIER, "@b", 1, 6, none⟩, ⟨.LESS_THAN, "<", 1, 9, none⟩,
            ⟨.IDENTIFIER, "@c", 1, 11, none⟩, ⟨.EOF, "", 1, 13, none⟩], 5⟩
          (.binaryOp "<"
            (.binaryOp "<" (.ident "@a" 1 1) (.ident "@b" 1 6) 1 4)
            (.ident "@c" 1 11) 1 9) := by
  simp +decide [parseComparison, parseAdditive, parseMultiplicative,
    parseUnary, parsePrimary, parseComparisonLoop, parseAdditiveLoop,
    parseMultiplicativeLoop, ParserState.check, ParserState.peek,
    ParserState.advance, ParserState.isAtEnd, ParserState.previous,
    skipNewlinesP, consumeP]

/-- **C4 (amended)**: the equality/relational precedence level is
    chaining and left-associative: whenever the cursor stands on one of
    the six comparison operators, the loop consumes it, parses the next
    additive operand, folds the pair into a left-nested comparison node,
    and continues at the same level; the loop only stops on a
    non-comparison token.  Together with the entry equation this makes
    `a < b < c` parse as the left-nested chain `(a < b) < c`. -/
theorem parse_comparison_level_chains
    (g : Nat) (p p2 : ParserState) (left right : Expr)
    (hne : p.isAtEnd = false)
    (hty : p.peek.type ∈ [TokenType.EQUALS_EQUALS, TokenType.NOT_EQUALS,
      TokenType.LESS_THAN, TokenType.LESS_THAN_EQUALS,
      TokenType.GREATER_THAN, TokenType.GREATER_THAN_EQUALS])
    (h1 : parseAdditive (g + 1)
        (skipNewlinesP (g + 1) ⟨p.tokens, p.current + 1⟩) = .ok p2 right) :
    (parseComparisonLoop (g + 2) p left
      = parseComparisonLoop (g + 1) p2
          (.binaryOp p.peek.value left right p.peek.line p.peek.column)) ∧
    (∀ (q : ParserState) (l₀ : Expr),
      q.check .EQUALS_EQUALS = false → q.check .NOT_EQUALS = false →
      q.check .LESS_THAN = false → q.check .LESS_THAN_EQUALS = false →
      q.check .GREATER_THAN = false → q.check .GREATER_THAN_EQUALS = false →
      parseComparisonLoop (g + 1) q l₀ = .ok q l₀) ∧
    (∀ (q q1 : ParserState) (l₀ : Expr),
      parseAdditive g q = .ok q1 l₀ →
      parseComparison (g + 1) q = parseComparisonLoop g q1 l₀) := by
  refine ⟨?_, ?_, ?_⟩
  · conv_lhs => rw [parseComparisonLoop]
    simp only [ParserState.check, ParserState.advance,
      ParserState.previous, ParserState.peek, hne, h1,
      Bool.false_eq_true, if_false, Nat.add_sub_cancel]
    simp only [List.mem_cons, List.not_mem_nil, or_false,
      ParserState.peek, List.getD_eq_getElem?_getD] at hty
    rcases hty with h | h | h | h | h | h <;> simp [h]
  · intro q l₀ hc1 hc2 hc3 hc4 hc5 hc6
    simp [parseComparisonLoop, hc1, hc2, hc3, hc4, hc5, hc6]
  · intro q q1 l₀ h
    simp [parseComparison, h]

set_option maxHeartbeats 1000000 in
/-- Witness for C4: one chaining step at the `==` of `@a == @b`. -/
theorem parse_comparison_level_chains_witness :
    parseComparisonLoop 7
        ⟨[⟨.IDENTIFIER, "@a", 1, 1, none⟩,
          ⟨.EQUALS_EQUALS, "==", 1, 4, none⟩,
          ⟨.IDENTIFIER, "@b", 1, 7, none⟩, ⟨.EOF, "", 1, 10, none⟩], 1⟩
        (.ident "@a" 1 1)
      = parseComparisonLoop 6
          ⟨[⟨.IDENTIFIER, "@a", 1, 1, none⟩,
            ⟨.EQUALS_EQUALS, "==", 1, 4, none⟩,
            ⟨.IDENTIFIER, "@b", 1, 7, none⟩, ⟨.EOF, "", 1, 10, none⟩], 3⟩
          (.binaryOp "==" (.ident "@a" 1 1) (.ident "@b" 1 7) 1 4) := by
  have h := (parse_comparison_level_chains 5
    ⟨[⟨.IDENTIFIER, "@a", 1, 1, none⟩,
      ⟨.EQUALS_EQUALS, "==", 1, 4, none⟩,
      ⟨.IDENTIFIER, "@b", 1, 7, none⟩, ⟨.EOF, "", 1, 10, none⟩], 1⟩
    ⟨[⟨.IDENTIFIER, "@a", 1, 1, none⟩,
      ⟨.EQUALS_EQUALS, "==", 1, 4, none⟩,
      ⟨.IDENTIFIER, "@b", 1, 7, none⟩, ⟨.EOF, "", 1, 10, none⟩], 3⟩
    (.ident "@a" 1 1) (.ident "@b" 1 7) (by decide) (by decide)
    (by simp +decide [parseAdditive, parseMultiplicative, parseUnary,
      parsePrimary, parseAdditiveLoop, parseMultiplicativeLoop,
      ParserState.check, ParserState.peek, ParserState.advance,
      ParserState.isAtEnd, ParserState.previous, skipNewlinesP])).1
  simpa using h

/- =========================== Claim C9 ================================ -/

/-- **C9**: the full pipeline is deterministic.  Each stage — the lexer
    (Lexer.tokenize), the parser (Parser.parse) and the evaluator
    (Evaluator.evaluate) — is a pure function of its explicit inputs
    (source text, token list, initial execution-context store, fuel);
    two runs from equal inputs produce equal token lists, equal ASTs and
    equal evaluated-value lists.  The embedding is total and consults no
    clock, random source or other ambient state, matching the absence of
    Date/Math.random/IO in the cited source. -/
theorem pipeline_deterministic
    (src1 src2 : String) (fuel1 fuel2 self1 self2 : Nat)
    (st1 st2 : Store) (toks1 toks2 : List Token) (prog1 prog2 : List Stmt)
    (hsrc : src1 = src2) (hfuel : fuel1 = fuel2) (hself : self1 = self2)
    (hst : st1 = st2) (htoks : toks1 = toks2) (hprog : prog1 = prog2) :
    Lexer.tokenize fuel1 src1 = Lexer.tokenize fuel2 src2 ∧
    Parser.parse fuel1 toks1 = Parser.parse fuel2 toks2 ∧
    Evaluator.evaluate fuel1 st1 self1 prog1
      = Evaluator.evaluate fuel2 st2 self2 prog2 := by
  subst hsrc hfuel hself hst htoks hprog
  exact ⟨rfl, rfl, rfl⟩

/-- Witness for C9 at concrete inputs. -/
theorem pipeline_deterministic_witness :
    Lexer.tokenize 9 "1 + 2" = Lexer.tokenize 9 "1 + 2" ∧
    Parser.parse 9 [] = Parser.parse 9 [] ∧
    Evaluator.evaluate 9 ⟨[]⟩ 0 [] = Evaluator.evaluate 9 ⟨[]⟩ 0 [] :=
  pipeline_deterministic "1 + 2" "1 + 2" 9 9 0 0 ⟨[]⟩ ⟨[]⟩ [] [] [] []
    rfl rfl rfl rfl rfl rfl

end MDLX
